import Mathlib

/-!
Verification of the InsiderWatch trade-processing pipeline.

This file is a shallow embedding, in Lean 4, of the detection engine of the
`whale-activity` (InsiderWatch) repository: the trade processor
(`internal/processor/processor.go`), the storage layer it drives
(`internal/storage`), and the alert severity model (`internal/alerts`).

Modelling conventions:
* Go `float64` values are modelled as `Rat` (exact rational arithmetic); all
  formulas in the source are exact decimal arithmetic at the scales involved.
* Go `int`/`int64` are modelled as `Int`; Go integer division truncates toward
  zero, which is `Int.tdiv`.
* Database rows are association lists keyed as by their primary keys; the
  database never errs in the model (error paths that merely log are taken as
  their success continuation, as in the Go happy path).
* External HTTP calls (Data API, Gamma API) and the wall clock are supplied by
  an explicit environment record, fixed for the duration of one call.
-/

namespace InsiderWatch

/-- Severity of an alert (`internal/alerts`): INFO, WARN or ALERT. -/
inductive Severity where
  | info
  | warn
  | alert
deriving DecidableEq, Repr

/-- Configuration fields of `internal/config.Config` read by the processor. -/
structure Config where
  minTradeUSD : Rat
  newWalletDaysMax : Int
  suspicionScoreWarn : Rat
  suspicionScoreAlert : Rat
  netPositionWindowHrs : Int
  alertCooldownMins : Int
  timeToCloseHoursMax : Int
  minWinRateThreshold : Rat
  velocityWindowMinutes : Int
  velocityThreshold : Int
  enableVelocityDetection : Bool
  enableClusterDetection : Bool
  clusterLookbackHours : Int
deriving Repr

/-- A trade from the Data API (`internal/polymarket/dataapi.Trade`). -/
structure Trade where
  proxyWallet : String
  side : String
  conditionID : String
  size : Rat
  price : Rat
  timestamp : Int
  outcome : String
  title : String
  slug : String
  transactionHash : String
  usdcSize : Rat
deriving Repr, DecidableEq

/-- Resolved market information (`processor.MarketInfo`). -/
structure MarketInfo where
  title : String
  slug : String
  url : String
  category : String
  endDate : Int
  liquidityNum : Rat
  volumeNum : Rat
deriving Repr, DecidableEq

/-- `calculateNotional`: prefer `usdcSize` when positive, else `size * price`. -/
def calculateNotional (t : Trade) : Rat :=
  if t.usdcSize > 0 then t.usdcSize else t.size * t.price

/-- `calculateSuspicionScore` (processor.go): base = notional / max(walletAgeDays, 1),
then a time-to-close multiplier when `0 < hoursToClose ≤ TimeToCloseHoursMax`. -/
def calculateSuspicionScore (cfg : Config) (notional : Rat) (walletAgeDays : Int)
    (hoursToClose : Rat) : Rat :=
  let baseScore := notional / ((max walletAgeDays 1 : Int) : Rat)
  if hoursToClose > 0 ∧ hoursToClose ≤ (cfg.timeToCloseHoursMax : Rat) then
    baseScore * (1 + ((cfg.timeToCloseHoursMax : Rat) - hoursToClose) / (cfg.timeToCloseHoursMax : Rat) * 4)
  else
    baseScore

/-- Spec-side definition (§4.8 Base): `base = notional / max(walletAgeDays, 1)`. -/
def specBaseScore (notional : Rat) (walletAgeDays : Int) : Rat :=
  notional / ((max walletAgeDays 1 : Int) : Rat)

/-- Spec-side definition (§4.8 Time-to-close): `m_ttc = 1 + (H − h)/H · 4` when
`h ∈ (0, H]`, else 1. -/
def specTTCMultiplier (cfg : Config) (hoursToClose : Rat) : Rat :=
  if 0 < hoursToClose ∧ hoursToClose ≤ (cfg.timeToCloseHoursMax : Rat) then
    1 + ((cfg.timeToCloseHoursMax : Rat) - hoursToClose) / (cfg.timeToCloseHoursMax : Rat) * 4
  else
    1

/-- `determineSeverity` (processor.go): score ≥ alert ⇒ ALERT, score ≥ warn ⇒ WARN,
else INFO. -/
def determineSeverity (cfg : Config) (score : Rat) : Severity :=
  if score ≥ cfg.suspicionScoreAlert then .alert
  else if score ≥ cfg.suspicionScoreWarn then .warn
  else .info

/-- The liquidity-ratio multiplier block of `processTrade` (processor.go lines
367-388): when market info is present and liquidity is positive, the ratio
`notional / liquidity` is tiered, guarded by a strict `ratio > 0.05`. -/
def liquidityMultiplierOf (marketInfo : Option MarketInfo) (notional : Rat) : Rat :=
  match marketInfo with
  | none => 1
  | some mi =>
    if mi.liquidityNum > 0 then
      let liquidityRatio := notional / mi.liquidityNum
      if liquidityRatio > 5/100 then
        if liquidityRatio ≥ 50/100 then 3
        else if liquidityRatio ≥ 20/100 then 2
        else if liquidityRatio ≥ 10/100 then 3/2
        else 6/5
      else 1
    else 1

/-- The extreme-price-confidence multiplier block of `processTrade`:
price ≥ 0.85 or ≤ 0.15 ⇒ 1.5. -/
def priceConfidenceMultiplierOf (price : Rat) : Rat :=
  if price ≥ 85/100 ∨ price ≤ 15/100 then 3/2 else 1

/-- A wallet row (`internal/storage.Wallet`). -/
structure Wallet where
  walletAddress : String
  firstSeenTS : Int
  fundingReceivedTS : Int
  totalTrades : Int
  totalVolumeUSD : Rat
  lastActivityTS : Int
  updatedTS : Int
deriving Repr, DecidableEq

/-- A wallet-stats row (`internal/storage.WalletStats`). -/
structure WalletStats where
  walletAddress : String
  totalResolvedTrades : Int
  winningTrades : Int
  losingTrades : Int
  winRate : Rat
  totalProfitUSD : Rat
  lastCalculatedTS : Int
deriving Repr, DecidableEq

/-- Funding age in hours as computed in `processTrade` (lines 272-286): only
when funding-received and first-seen are positive and first-seen does not
precede funding-received; otherwise 0. -/
def fundingAgeHoursOf (w : Wallet) : Rat :=
  if w.fundingReceivedTS > 0 ∧ w.firstSeenTS > 0 ∧ w.firstSeenTS ≥ w.fundingReceivedTS then
    ((w.firstSeenTS - w.fundingReceivedTS : Int) : Rat) / 3600
  else 0

/-- Funding age in minutes as computed in `processTrade` (same gate). -/
def fundingAgeMinutesOf (w : Wallet) : Rat :=
  if w.fundingReceivedTS > 0 ∧ w.firstSeenTS > 0 ∧ w.firstSeenTS ≥ w.fundingReceivedTS then
    ((w.firstSeenTS - w.fundingReceivedTS : Int) : Rat) / 60
  else 0

/-- The flash-funding multiplier block of `processTrade`:
`0 < fundingAgeMinutes ≤ 5` ⇒ 3. -/
def flashFundingMultiplierOf (fundingAgeMinutes : Rat) : Rat :=
  if fundingAgeMinutes > 0 ∧ fundingAgeMinutes ≤ 5 then 3 else 1

/-- The velocity multiplier block of `processTrade`: applied when the count
reaches the configured threshold, tiered at 10 and 5. -/
def velocityMultiplierOf (cfg : Config) (velocityCount : Int) : Rat :=
  if velocityCount ≥ cfg.velocityThreshold then
    if velocityCount ≥ 10 then 3
    else if velocityCount ≥ 5 then 2
    else 3/2
  else 1

/-- The funding-age multiplier of `processTrade` (lines 557-568):
`0 < fundingAgeHours ≤ 24` ⇒ `1 + (24 − h)/24 · 1.5`. -/
def fundingAgeMultiplierOf (fundingAgeHours : Rat) : Rat :=
  if fundingAgeHours > 0 ∧ fundingAgeHours ≤ 24 then
    1 + (24 - fundingAgeHours) / 24 * (3/2)
  else 1

/-- The straight-line multiplier-application sequence of `processTrade`
(lines 464-568): starting from the time-to-close-adjusted score, each signal
multiplier is applied in source order, each behind its own guard. -/
def adjustScore (cfg : Config) (score : Rat) (walletStats : Option WalletStats)
    (winRate firstTradeLargeM flashM liqM priceM concM velM clusterM : Rat)
    (isCoordinated : Bool) (fundingAgeHours : Rat) : Rat :=
  let s := score
  let s := match walletStats with
    | some st =>
      if st.totalResolvedTrades ≥ 5 ∧ winRate ≥ cfg.minWinRateThreshold then s * (1 + winRate) else s
    | none => s
  let s := if firstTradeLargeM > 1 then s * firstTradeLargeM else s
  let s := if flashM > 1 then s * flashM else s
  let s := if liqM > 1 then s * liqM else s
  let s := if priceM > 1 then s * priceM else s
  let s := if concM > 1 then s * concM else s
  let s := if velM > 1 then s * velM else s
  let s := if clusterM > 1 then s * clusterM else s
  let s := if isCoordinated then s * 2 else s
  let s := if fundingAgeHours > 0 ∧ fundingAgeHours ≤ 24 then
    s * (1 + (24 - fundingAgeHours) / 24 * (3/2)) else s
  s

/-! ### Decimal formatting (Go `fmt.Sprintf("%.6f", x)`) -/

/-- Left-pad a string with a character to the given width. -/
def padLeft (s : String) (n : Nat) (c : Char) : String :=
  String.mk (List.replicate (n - s.length) c) ++ s

/-- Round a non-negative rational scaled value to the nearest integer,
ties to even, as Go `strconv.FormatFloat` does when producing a fixed
number of decimals. -/
def roundNearestEven (q : Rat) : Int :=
  let fl := ⌊q⌋
  let frac := q - (fl : Rat)
  if frac > 1/2 then fl + 1
  else if frac < 1/2 then fl
  else if fl % 2 = 0 then fl else fl + 1

/-- Go `fmt.Sprintf("%.6f", x)`: sign, integer part, '.', exactly six fractional
digits, rounding to nearest (ties to even). A negative value keeps its sign
even when it rounds to zero. -/
def formatFixed6 (q : Rat) : String :=
  let n := (roundNearestEven (|q| * 1000000)).toNat
  let ip := n / 1000000
  let fp := n % 1000000
  (if q < 0 then "-" else "") ++ toString ip ++ "." ++ padLeft (toString fp) 6 '0'

/-! ### SHA-256 (Go `crypto/sha256`), over byte lists, words as `Nat` mod 2^32 -/

/-- 32-bit truncation. -/
def w32 (n : Nat) : Nat := n % 4294967296

/-- 32-bit right rotation. -/
def rotr32 (n x : Nat) : Nat := w32 ((x >>> n) ||| (x <<< (32 - n)))

/-- SHA-256 small sigma 0. -/
def ssig0 (x : Nat) : Nat := (rotr32 7 x) ^^^ (rotr32 18 x) ^^^ (x >>> 3)

/-- SHA-256 small sigma 1. -/
def ssig1 (x : Nat) : Nat := (rotr32 17 x) ^^^ (rotr32 19 x) ^^^ (x >>> 10)

/-- SHA-256 big sigma 0. -/
def bsig0 (x : Nat) : Nat := (rotr32 2 x) ^^^ (rotr32 13 x) ^^^ (rotr32 22 x)

/-- SHA-256 big sigma 1. -/
def bsig1 (x : Nat) : Nat := (rotr32 6 x) ^^^ (rotr32 11 x) ^^^ (rotr32 25 x)

/-- SHA-256 choice function. -/
def ch32 (x y z : Nat) : Nat := (x &&& y) ^^^ ((x ^^^ 4294967295) &&& z)

/-- SHA-256 majority function. -/
def maj32 (x y z : Nat) : Nat := (x &&& y) ^^^ (x &&& z) ^^^ (y &&& z)

/-- The 64 SHA-256 round constants (FIPS 180-4 §4.2.2), in decimal. -/
def sha256K : List Nat :=
  [1116352408, 1899447441, 3049323471, 3921009573, 961987163,
   1508970993, 2453635748, 2870763221, 3624381080, 310598401,
   607225278, 1426881987, 1925078388, 2162078206, 2614888103,
   3248222580, 3835390401, 4022224774, 264347078, 604807628,
   770255983, 1249150122, 1555081692, 1996064986, 2554220882,
   2821834349, 2952996808, 3210313671, 3336571891, 3584528711,
   113926993, 338241895, 666307205, 773529912, 1294757372,
   1396182291, 1695183700, 1986661051, 2177026350, 2456956037,
   2730485921, 2820302411, 3259730800, 3345764771, 3516065817,
   3600352804, 4094571909, 275423344, 430227734, 506948616,
   659060556, 883997877, 958139571, 1322822218, 1537002063,
   1747873779, 1955562222, 2024104815, 2227730452, 2361852424,
   2428436474, 2756734187, 3204031479, 3329325298]

/-- SHA-256 initial hash value (FIPS 180-4 §5.3.3), eight 32-bit words in
decimal. -/
def sha256H0 : List Nat :=
  [1779033703, 3144134277, 1013904242, 2773480762,
   1359893119, 2600822924, 528734635, 1541459225]

/-- Big-endian bytes of a value, fixed width. -/
def beBytes : Nat → Nat → List Nat
  | 0, _ => []
  | k + 1, n => (n >>> (8 * k)) % 256 :: beBytes k n

/-- SHA-256 padding: 0x80, zeros to 56 mod 64, then the 64-bit bit length. -/
def sha256Pad (msg : List Nat) : List Nat :=
  let r := (msg.length + 1) % 64
  msg ++ 128 :: List.replicate ((56 + 64 - r) % 64) 0 ++ beBytes 8 (8 * msg.length)

/-- Split a byte list into 16 big-endian 32-bit words (one 64-byte block). -/
def blockWords : List Nat → List Nat
  | b0 :: b1 :: b2 :: b3 :: rest =>
    ((b0 <<< 24) + (b1 <<< 16) + (b2 <<< 8) + b3) :: blockWords rest
  | _ => []

/-- Extend the 16 schedule words to 64. -/
def extendSchedule (a : Array Nat) : Array Nat :=
  (List.range 48).foldl
    (fun a i =>
      let t := i + 16
      a.push (w32 (ssig1 (a.getD (t - 2) 0) + a.getD (t - 7) 0 +
                   ssig0 (a.getD (t - 15) 0) + a.getD (t - 16) 0)))
    a

/-- One SHA-256 compression round. -/
def sha256Round (st : List Nat) (kw : Nat × Nat) : List Nat :=
  match st with
  | [a, b, c, d, e, f, g, h] =>
    let t1 := w32 (h + bsig1 e + ch32 e f g + kw.1 + kw.2)
    let t2 := w32 (bsig0 a + maj32 a b c)
    [w32 (t1 + t2), a, b, c, w32 (d + t1), e, f, g]
  | st => st

/-- Compress one 64-byte block into the running hash. -/
def sha256Block (h : List Nat) (block : List Nat) : List Nat :=
  let ws := (extendSchedule (Array.mk (blockWords block))).toList
  let st := (sha256K.zip ws).foldl sha256Round h
  (h.zip st).map (fun p => w32 (p.1 + p.2))

/-- Fold the compression function over successive 64-byte blocks; the fuel
argument (instantiated with the padded length, an upper bound on the number of
blocks) makes the recursion structural. -/
def sha256Iter : Nat → List Nat → List Nat → List Nat
  | 0, h, _ => h
  | _ + 1, h, [] => h
  | fuel + 1, h, l => sha256Iter fuel (sha256Block h (l.take 64)) (l.drop 64)

/-- SHA-256 digest of a byte list, as 32 bytes. -/
def sha256Bytes (msg : List Nat) : List Nat :=
  let padded := sha256Pad msg
  let final := sha256Iter padded.length sha256H0 padded
  final.flatMap (beBytes 4)

/-- One lowercase hexadecimal digit. -/
def hexDigit (n : Nat) : Char :=
  if n < 10 then Char.ofNat (48 + n) else Char.ofNat (87 + n)

/-- Lowercase hex encoding of a byte list (Go `fmt.Sprintf("%x", hash)`). -/
def hexEncode (bytes : List Nat) : String :=
  String.mk (bytes.flatMap (fun b => [hexDigit (b / 16), hexDigit (b % 16)]))

/-- ASCII bytes of a string (the canonical trade strings are pure ASCII, so
this coincides with Go's UTF-8 `[]byte` conversion). -/
def strBytes (s : String) : List Nat := s.toList.map Char.toNat

/-- The canonical dedup string of `calculateTradeHash`:
`wallet:market:timestamp:size(6dp):price(6dp)`. -/
def tradeHashPreimage (t : Trade) : String :=
  t.proxyWallet ++ ":" ++ t.conditionID ++ ":" ++ toString t.timestamp ++ ":" ++
    formatFixed6 t.size ++ ":" ++ formatFixed6 t.price

/-- `calculateTradeHash` (processor.go): the transaction hash verbatim when
non-empty, else the hex-encoded SHA-256 of the canonical string. -/
def calculateTradeHash (t : Trade) : String :=
  if t.transactionHash ≠ "" then t.transactionHash
  else hexEncode (sha256Bytes (strBytes (tradeHashPreimage t)))

/-! ### `encoding/json` unmarshalling into `[]string`, and `strconv.ParseFloat`

`determineWinner` feeds the raw `outcomes` / `outcomePrices` strings to
`json.Unmarshal(data, &[]string)`; only a JSON array of JSON strings succeeds.
The parsers below are fuel-indexed (fuel bounded by the input length) so that
they reduce inside the kernel. -/

/-- Drop leading JSON whitespace. -/
def skipWS : List Char → List Char
  | c :: rest =>
    if c = ' ' ∨ c = '\t' ∨ c = '\n' ∨ c = '\r' then skipWS rest else c :: rest
  | [] => []

/-- Value of one hexadecimal digit. -/
def hexVal (c : Char) : Option Nat :=
  if '0' ≤ c ∧ c ≤ '9' then some (c.toNat - 48)
  else if 'a' ≤ c ∧ c ≤ 'f' then some (c.toNat - 87)
  else if 'A' ≤ c ∧ c ≤ 'F' then some (c.toNat - 55)
  else none

/-- Single-character JSON escapes. -/
def escChar (c : Char) : Option Char :=
  if c = '"' ∨ c = '\\' ∨ c = '/' then some c
  else if c = 'b' then some (Char.ofNat 8)
  else if c = 'f' then some (Char.ofNat 12)
  else if c = 'n' then some '\n'
  else if c = 'r' then some '\r'
  else if c = 't' then some '\t'
  else none

/-- Parse the body of a JSON string (opening quote already consumed); returns
the decoded characters and the input after the closing quote. -/
def parseStringBody : Nat → List Char → Option (List Char × List Char)
  | 0, _ => none
  | _ + 1, [] => none
  | fuel + 1, c :: rest =>
    if c = '"' then some ([], rest)
    else if c = '\\' then
      match rest with
      | [] => none
      | e :: rest2 =>
        if e = 'u' then
          match rest2 with
          | a :: b :: c2 :: d :: rest3 =>
            match hexVal a, hexVal b, hexVal c2, hexVal d with
            | some ha, some hb, some hc, some hd =>
              (parseStringBody fuel rest3).map
                (fun p => (Char.ofNat (((ha * 16 + hb) * 16 + hc) * 16 + hd) :: p.1, p.2))
            | _, _, _, _ => none
          | _ => none
        else
          match escChar e with
          | some ec => (parseStringBody fuel rest2).map (fun p => (ec :: p.1, p.2))
          | none => none
    else (parseStringBody fuel rest).map (fun p => (c :: p.1, p.2))

/-- Parse the comma-separated string elements of a JSON array, positioned at
the start of the first element; returns the elements and the input after the
closing bracket. -/
def parseItems : Nat → List Char → Option (List String × List Char)
  | 0, _ => none
  | fuel + 1, cs =>
    match cs with
    | '"' :: rest =>
      match parseStringBody (rest.length + 1) rest with
      | some (content, rem) =>
        match skipWS rem with
        | ',' :: tail =>
          match parseItems fuel (skipWS tail) with
          | some (more, t2) => some (String.mk content :: more, t2)
          | none => none
        | ']' :: tail => some ([String.mk content], tail)
        | _ => none
      | none => none
    | _ => none

/-- `json.Unmarshal(data, &[]string)`: succeeds exactly on a JSON array of
strings (with surrounding whitespace), yielding the decoded elements. -/
def parseJSONStringArray (s : String) : Option (List String) :=
  match skipWS s.toList with
  | '[' :: rest =>
    match skipWS rest with
    | ']' :: tail => if (skipWS tail).isEmpty then some [] else none
    | body =>
      match parseItems (body.length + 1) body with
      | some (items, tail) => if (skipWS tail).isEmpty then some items else none
      | none => none
  | _ => none

/-- Decimal digits to a natural number. -/
def digitsToNat (ds : List Nat) : Nat := ds.foldl (fun a d => a * 10 + d) 0

/-- Longest prefix of decimal digits. -/
def takeDigits : List Char → List Nat × List Char
  | c :: rest =>
    if '0' ≤ c ∧ c ≤ '9' then
      let p := takeDigits rest
      ((c.toNat - 48) :: p.1, p.2)
    else ([], c :: rest)
  | [] => ([], [])

/-- `strconv.ParseFloat(s, 64)` on the decimal grammar
`[+|-] digits [. digits] [(e|E) [+|-] digits]` (with at least one mantissa
digit), as an exact rational; anything else (including surrounding
whitespace) fails. -/
def parseFloat? (s : String) : Option Rat :=
  let step1 : Int × List Char :=
    match s.toList with
    | '+' :: r => (1, r)
    | '-' :: r => (-1, r)
    | r => (1, r)
  let sign := step1.1
  let (ip, cs1) := takeDigits step1.2
  let (fp, cs2) :=
    match cs1 with
    | '.' :: r => takeDigits r
    | r => ([], r)
  if ip.isEmpty ∧ fp.isEmpty then none
  else
    let mant : Rat := (digitsToNat ip : Rat) + (digitsToNat fp : Rat) / ((10 ^ fp.length : Nat) : Rat)
    match cs2 with
    | [] => some (sign * mant)
    | e :: r =>
      if e = 'e' ∨ e = 'E' then
        let step2 : Bool × List Char :=
          match r with
          | '+' :: r2 => (false, r2)
          | '-' :: r2 => (true, r2)
          | r2 => (false, r2)
        let (ed, rest) := takeDigits step2.2
        if ed.isEmpty ∨ ¬ rest.isEmpty then none
        else if step2.1 then some (sign * mant / ((10 ^ digitsToNat ed : Nat) : Rat))
        else some (sign * mant * ((10 ^ digitsToNat ed : Nat) : Rat))
      else none

/-- `determineWinner` (processor.go lines 1038-1074): unmarshal `outcomes` and
`outcomePrices` as JSON string arrays, require equal lengths, and return the
first outcome whose parsed price is ≥ 0.95; otherwise the empty string. -/
def determineWinner (outcomes outcomePrices : String) : String :=
  if outcomes = "" ∨ outcomePrices = "" then ""
  else
    match parseJSONStringArray outcomes with
    | none => ""
    | some outcomeList =>
      match parseJSONStringArray outcomePrices with
      | none => ""
      | some priceList =>
        if outcomeList.length ≠ priceList.length then ""
        else
          match (outcomeList.zip priceList).find? (fun p =>
              match parseFloat? p.2 with
              | some v => v ≥ 95/100
              | none => false) with
          | some p => p.1
          | none => ""

/-! ### Persisted state (`internal/storage`) -/

/-- A `trades_seen` row (`storage.TradeSeen`). -/
structure TradeSeen where
  tradeHash : String
  transactionHash : String
  conditionID : String
  proxyWallet : String
  timestampSec : Int
  notionalUSD : Rat
  side : String
  outcome : String
  price : Rat
  createdTS : Int
deriving Repr, DecidableEq

/-- An `alerts` row (`storage.Alert`); the auto-increment id is left implicit
(rows are kept in insertion order). -/
structure Alert where
  alertType : String
  walletAddress : String
  conditionID : String
  marketTitle : String
  marketSlug : String
  marketURL : String
  side : String
  outcome : String
  notionalUSD : Rat
  price : Rat
  walletAgeDays : Int
  suspicionScore : Rat
  transactionHash : String
  tradeTimestampSec : Int
  createdTS : Int
deriving Repr, DecidableEq

/-- A `wallet_market_net` row (`storage.WalletMarketNet`). -/
structure WalletMarketNet where
  walletAddress : String
  conditionID : String
  windowStartTS : Int
  netNotionalUSD : Rat
  tradeCount : Int
  updatedTS : Int
deriving Repr, DecidableEq

/-- A `market_map` cache row (`storage.MarketMap`). -/
structure MarketMap where
  conditionID : String
  marketSlug : String
  marketTitle : String
  marketURL : String
  category : String
  endDate : Int
  volumeNum : Rat
  liquidityNum : Rat
  isActive : Bool
  updatedTS : Int
deriving Repr, DecidableEq

/-- A `market_resolutions` row (`storage.MarketResolution`). -/
structure MarketResolution where
  conditionID : String
  winningOutcome : String
  resolvedTS : Int
  marketTitle : String
deriving Repr, DecidableEq

/-- A `wallet_funding_sources` row (`storage.WalletFundingSource`). -/
structure WalletFundingSource where
  walletAddress : String
  fundingSource : String
  fundingTS : Int
  amountUSD : Rat
  txHash : String
  createdTS : Int
deriving Repr, DecidableEq

/-- A `wallet_clusters` row (`storage.WalletCluster`). -/
structure WalletCluster where
  clusterID : String
  fundingSource : String
  walletCount : Int
  totalVolumeUSD : Rat
  firstSeenTS : Int
  lastActivityTS : Int
  suspicionScore : Rat
  isFlagged : Bool
  updatedTS : Int
deriving Repr, DecidableEq

/-- A `coordinated_trades` row (`storage.CoordinatedTrade`). -/
structure CoordinatedTrade where
  clusterID : String
  conditionID : String
  walletCount : Int
  totalNotionalUSD : Rat
  timeWindowSec : Int
  firstTradeTS : Int
  lastTradeTS : Int
  marketTitle : String
  createdTS : Int
deriving Repr, DecidableEq

/- The per-table operations below each touch a single table; the
field-preservation lemmas for the other tables live after the definitions. -/

/-- The whole persisted database. Tables are lists of rows; newly inserted rows
are prepended; keyed updates rewrite the row in place. -/
structure DBState where
  appState : List (String × String)
  tradesSeen : List TradeSeen
  wallets : List Wallet
  alerts : List Alert
  netPositions : List WalletMarketNet
  marketMap : List MarketMap
  marketResolutions : List MarketResolution
  walletStats : List WalletStats
  fundingSources : List WalletFundingSource
  clusters : List WalletCluster
  coordinatedTrades : List CoordinatedTrade
deriving Repr

/-- The empty database (fresh deployment; all tables empty). -/
def initialState : DBState :=
  ⟨[], [], [], [], [], [], [], [], [], [], []⟩

/-- `storage.HasTradeSeen`: a row with this trade hash exists. -/
def hasTradeSeen (db : DBState) (tradeHash : String) : Bool :=
  db.tradesSeen.any (fun r => r.tradeHash = tradeHash)

/-- `storage.InsertTrade`. -/
def insertTrade (db : DBState) (row : TradeSeen) : DBState :=
  { db with tradesSeen := row :: db.tradesSeen }

/-- `storage.GetWallet`: lookup by address. -/
def getWallet (db : DBState) (address : String) : Option Wallet :=
  db.wallets.find? (fun w => w.walletAddress = address)

/-- `storage.UpsertWallet`: insert when absent; otherwise an additive update
`total_trades += w.totalTrades`, `total_volume_usd += w.totalVolumeUSD`, and a
plain overwrite of `last_activity_ts` / `updated_ts` (first-seen and
funding-received are never touched by the update branch). -/
def upsertWallet (db : DBState) (w : Wallet) : DBState :=
  match getWallet db w.walletAddress with
  | none => { db with wallets := w :: db.wallets }
  | some _ =>
    { db with wallets := db.wallets.map (fun e =>
        if e.walletAddress = w.walletAddress then
          { e with totalTrades := e.totalTrades + w.totalTrades,
                   totalVolumeUSD := e.totalVolumeUSD + w.totalVolumeUSD,
                   lastActivityTS := w.lastActivityTS,
                   updatedTS := w.updatedTS }
        else e) }

/-- `storage.InsertAlert`. -/
def insertAlert (db : DBState) (a : Alert) : DBState :=
  { db with alerts := a :: db.alerts }

/-- `storage.GetLastAlertForWallet`: the wallet's alert with the greatest
`created_ts` (`ORDER BY created_ts DESC LIMIT 1`). -/
def getLastAlertForWallet (db : DBState) (wallet : String) : Option Alert :=
  (db.alerts.filter (fun a => a.walletAddress = wallet)).foldl
    (fun best a =>
      match best with
      | none => some a
      | some b => if a.createdTS > b.createdTS then some a else some b)
    none

/-- `storage.GetNetPosition`: lookup by (wallet, market, window-start). -/
def getNetPosition (db : DBState) (wallet conditionID : String) (windowStartTS : Int) :
    Option WalletMarketNet :=
  db.netPositions.find? (fun p =>
    p.walletAddress = wallet ∧ p.conditionID = conditionID ∧ p.windowStartTS = windowStartTS)

/-- `storage.UpsertNetPosition`: insert when absent; otherwise an additive
update `net_notional_usd += pos.netNotionalUSD`, `trade_count += pos.tradeCount`. -/
def upsertNetPosition (db : DBState) (pos : WalletMarketNet) : DBState :=
  match getNetPosition db pos.walletAddress pos.conditionID pos.windowStartTS with
  | none => { db with netPositions := pos :: db.netPositions }
  | some _ =>
    { db with netPositions := db.netPositions.map (fun e =>
        if e.walletAddress = pos.walletAddress ∧ e.conditionID = pos.conditionID ∧
            e.windowStartTS = pos.windowStartTS then
          { e with netNotionalUSD := e.netNotionalUSD + pos.netNotionalUSD,
                   tradeCount := e.tradeCount + pos.tradeCount,
                   updatedTS := pos.updatedTS }
        else e) }

/-- `storage.GetMarketMap`: lookup by condition id. -/
def getMarketMap (db : DBState) (conditionID : String) : Option MarketMap :=
  db.marketMap.find? (fun m => m.conditionID = conditionID)

/-- `storage.UpsertMarketMap` (GORM `Save`): replace the row with this primary
key, inserting when absent. -/
def upsertMarketMap (db : DBState) (m : MarketMap) : DBState :=
  match getMarketMap db m.conditionID with
  | none => { db with marketMap := m :: db.marketMap }
  | some _ =>
    { db with marketMap := db.marketMap.map (fun e =>
        if e.conditionID = m.conditionID then m else e) }

/-- `storage.GetMarketResolution`. -/
def getMarketResolution (db : DBState) (conditionID : String) : Option MarketResolution :=
  db.marketResolutions.find? (fun m => m.conditionID = conditionID)

/-- `storage.UpsertMarketResolution` (GORM `Save`). -/
def upsertMarketResolution (db : DBState) (m : MarketResolution) : DBState :=
  match getMarketResolution db m.conditionID with
  | none => { db with marketResolutions := m :: db.marketResolutions }
  | some _ =>
    { db with marketResolutions := db.marketResolutions.map (fun e =>
        if e.conditionID = m.conditionID then m else e) }

/-- `storage.GetWalletStats`. -/
def getWalletStats (db : DBState) (walletAddress : String) : Option WalletStats :=
  db.walletStats.find? (fun s => s.walletAddress = walletAddress)

/-- `storage.UpsertWalletStats` (GORM `Save`). -/
def upsertWalletStats (db : DBState) (s : WalletStats) : DBState :=
  match getWalletStats db s.walletAddress with
  | none => { db with walletStats := s :: db.walletStats }
  | some _ =>
    { db with walletStats := db.walletStats.map (fun e =>
        if e.walletAddress = s.walletAddress then s else e) }

/-- `storage.GetAllConditionIDs`: the distinct condition ids of `trades_seen`. -/
def getAllConditionIDs (db : DBState) : List String :=
  (db.tradesSeen.map (fun r => r.conditionID)).dedup

/-- `storage.GetTradesByConditionID`. -/
def getTradesByConditionID (db : DBState) (conditionID : String) : List TradeSeen :=
  db.tradesSeen.filter (fun r => r.conditionID = conditionID)

/-- `storage.SetState` (GORM `Save` keyed by `state_key`). -/
def setState (db : DBState) (key value : String) : DBState :=
  match db.appState.find? (fun p => p.1 = key) with
  | none => { db with appState := (key, value) :: db.appState }
  | some _ =>
    { db with appState := db.appState.map (fun p => if p.1 = key then (key, value) else p) }

/-- Modelled from the spec: `storage.GetRecentTradesForWallet` is referenced by
the processor but absent from the sources; per §4.8 it returns the wallet's
`trades_seen` rows inside the lookback window (timestamp ≥ lookback). -/
def getRecentTradesForWallet (db : DBState) (walletAddress : String) (lookbackTS : Int) :
    List TradeSeen :=
  db.tradesSeen.filter (fun r => r.proxyWallet = walletAddress ∧ r.timestampSec ≥ lookbackTS)

/-- Modelled from the spec: `storage.GetRecentTradesForCluster` is referenced by
the processor but absent from the sources; per §4.6 it returns the cluster
members' `trades_seen` rows inside the lookback window. -/
def getRecentTradesForCluster (db : DBState) (walletAddrs : List String) (lookbackTS : Int) :
    List TradeSeen :=
  db.tradesSeen.filter (fun r => r.proxyWallet ∈ walletAddrs ∧ r.timestampSec ≥ lookbackTS)

/-- Modelled from the spec: `storage.GetWalletFundingSource` is referenced by
the processor but absent from the sources; lookup keyed by wallet address. -/
def getWalletFundingSource (db : DBState) (walletAddress : String) :
    Option WalletFundingSource :=
  db.fundingSources.find? (fun f => f.walletAddress = walletAddress)

/-- Modelled from the spec: `storage.UpsertWalletFundingSource` (unique by
wallet, §4.6) is absent from the sources; a `Save` keyed by wallet address. -/
def upsertWalletFundingSource (db : DBState) (f : WalletFundingSource) : DBState :=
  match getWalletFundingSource db f.walletAddress with
  | none => { db with fundingSources := f :: db.fundingSources }
  | some _ =>
    { db with fundingSources := db.fundingSources.map (fun e =>
        if e.walletAddress = f.walletAddress then f else e) }

/-- Modelled from the spec: `storage.GetWalletClusterBySource` is referenced by
the processor but absent from the sources; lookup keyed by funding source. -/
def getWalletClusterBySource (db : DBState) (fundingSource : String) : Option WalletCluster :=
  db.clusters.find? (fun c => c.fundingSource = fundingSource)

/-- Modelled from the spec: `storage.UpsertWalletCluster` is referenced by the
processor but absent from the sources; a `Save` keyed by cluster id. -/
def upsertWalletCluster (db : DBState) (c : WalletCluster) : DBState :=
  match db.clusters.find? (fun e => e.clusterID = c.clusterID) with
  | none => { db with clusters := c :: db.clusters }
  | some _ =>
    { db with clusters := db.clusters.map (fun e =>
        if e.clusterID = c.clusterID then c else e) }

/-- Modelled from the spec: `storage.GetWalletsByFundingSource` is referenced
by the processor but absent from the sources; the addresses of the wallets
recorded with this funding source. -/
def getWalletsByFundingSource (db : DBState) (fundingSource : String) : List String :=
  (db.fundingSources.filter (fun f => f.fundingSource = fundingSource)).map
    (fun f => f.walletAddress)

/-- Modelled from the spec: `storage.InsertCoordinatedTrade` is referenced by
the processor but absent from the sources; a plain append. -/
def insertCoordinatedTrade (db : DBState) (c : CoordinatedTrade) : DBState :=
  { db with coordinatedTrades := c :: db.coordinatedTrades }

/-! ### External inputs and the processor (`internal/processor`) -/

/-- An activity event from the Data API (`dataapi.ActivityEvent`), restricted
to the fields the processor reads. -/
structure ActivityEvent where
  proxyWallet : String
  timestamp : Int
  conditionID : String
  type : String
  size : Rat
  usdcSize : Rat
  side : String
  outcome : String
deriving Repr, DecidableEq

/-- `ActivityEvent.GetFromAddress` (dataapi/models.go): a placeholder that
unconditionally returns the empty string. -/
def ActivityEvent.getFromAddress (_ : ActivityEvent) : String := ""

/-- A market from the Gamma API as the processor consumes it. The client and
its model are not under the sources; fields follow §6 of the spec, with the
RFC 3339 `endDate` string represented by its parsed Unix value
(`none` for an absent or unparseable date, which the processor maps to 0). -/
structure GammaMarket where
  slug : String
  question : String
  category : String
  endDateParsed : Option Int
  liquidityNum : Rat
  volumeNum : Rat
  active : Bool
  closed : Bool
  outcomes : String
  outcomePrices : String
deriving Repr

/-- The environment of one processor call: configuration, the wall clock, and
the upstream HTTP responses (`none` models a failed call). -/
structure Env where
  cfg : Config
  now : Int
  twoMonthsFromNow : Int
  firstActivity : String → Option ActivityEvent
  walletActivity : String → Option (List ActivityEvent)
  gammaMarket : String → Option GammaMarket

/-- Substring test on character lists (Go `strings.Contains`). -/
def listContains (sub : List Char) : List Char → Bool
  | [] => sub.isEmpty
  | c :: t => sub.isPrefixOf (c :: t) || listContains sub t

/-- The excluded sports/entertainment category tokens of
`isNotInsiderCategory`. -/
def excludedCategories : List String :=
  ["sports", "nfl", "nba", "mlb", "nhl", "soccer", "football", "basketball",
   "baseball", "hockey", "mma", "ufc", "boxing", "tennis", "golf", "racing",
   "f1", "nascar"]

/-- `isNotInsiderCategory` (processor.go): empty category is kept; otherwise
the lowercased category must not contain any excluded token. -/
def isNotInsiderCategory (category : String) : Bool :=
  if category = "" then false
  else excludedCategories.any (fun ex => listContains ex.toList category.toLower.toList)

/-- `resolveMarket` (processor.go): serve from the `market_map` cache when
fresh (age < 86,400 s); else fetch from the Gamma API, caching on success, or
synthesize a minimal entry from the trade's own title/slug on failure. -/
def resolveMarket (env : Env) (db : DBState) (t : Trade) : MarketInfo × DBState :=
  let cachedHit : Option MarketMap :=
    match getMarketMap db t.conditionID with
    | some c => if env.now - c.updatedTS < 86400 then some c else none
    | none => none
  match cachedHit with
  | some c =>
    ({ title := c.marketTitle, slug := c.marketSlug, url := c.marketURL,
       category := c.category, endDate := c.endDate,
       liquidityNum := c.liquidityNum, volumeNum := c.volumeNum }, db)
  | none =>
    match env.gammaMarket t.conditionID with
    | none =>
      if t.slug ≠ "" then
        ({ title := t.title, slug := t.slug,
           url := "https://polymarket.com/market/" ++ t.slug,
           category := "", endDate := 0, liquidityNum := 0, volumeNum := 0 }, db)
      else
        ({ title := t.title, slug := "",
           url := "https://polymarket.com/search?q=" ++ t.conditionID,
           category := "", endDate := 0, liquidityNum := 0, volumeNum := 0 }, db)
    | some m =>
      let endDate := match m.endDateParsed with | some ts => ts | none => 0
      let url := "https://polymarket.com/market/" ++ m.slug
      let cacheRow : MarketMap :=
        { conditionID := t.conditionID, marketSlug := m.slug, marketTitle := m.question,
          marketURL := url, category := m.category, endDate := endDate,
          volumeNum := m.volumeNum, liquidityNum := m.liquidityNum,
          isActive := m.active, updatedTS := env.now }
      ({ title := m.question, slug := m.slug, url := url, category := m.category,
         endDate := endDate, liquidityNum := m.liquidityNum, volumeNum := m.volumeNum },
       upsertMarketMap db cacheRow)

/-- `trackFundingSource` (processor.go): persist the wallet→source mapping,
then create the source's cluster (member count 1) or bump its member count. -/
def trackFundingSource (env : Env) (db : DBState) (walletAddress fundingSource : String)
    (fundingTS : Int) : DBState :=
  let db := upsertWalletFundingSource db
    { walletAddress := walletAddress, fundingSource := fundingSource, fundingTS := fundingTS,
      amountUSD := 0, txHash := "", createdTS := env.now }
  match getWalletClusterBySource db fundingSource with
  | none =>
    upsertWalletCluster db
      { clusterID := "cluster_" ++ hexEncode (sha256Bytes (strBytes fundingSource)),
        fundingSource := fundingSource, walletCount := 1, totalVolumeUSD := 0,
        firstSeenTS := fundingTS, lastActivityTS := fundingTS, suspicionScore := 0,
        isFlagged := false, updatedTS := env.now }
  | some c =>
    upsertWalletCluster db { c with walletCount := c.walletCount + 1, lastActivityTS := env.now }

/-- `getOrCreateWallet` (processor.go): return the existing row, or create one
from the wallet's first upstream activity (falling back to the trade's own
timestamp with funding-received 0), then track the funding source when one was
extracted. The per-address lock is the identity in this sequential model. -/
def getOrCreateWallet (env : Env) (db : DBState) (address : String) (tradeTimestamp : Int) :
    Wallet × DBState :=
  match getWallet db address with
  | some w => (w, db)
  | none =>
    let fa := env.firstActivity address
    let firstSeenTS := match fa with | none => tradeTimestamp | some a => a.timestamp
    let fundingReceivedTS := match fa with | none => 0 | some a => a.timestamp
    let fundingSource := match fa with | none => "" | some a => a.getFromAddress
    let w : Wallet :=
      { walletAddress := address, firstSeenTS := firstSeenTS,
        fundingReceivedTS := fundingReceivedTS, totalTrades := 0,
        totalVolumeUSD := 0, lastActivityTS := tradeTimestamp, updatedTS := env.now }
    let db := upsertWallet db w
    let db := if fundingSource ≠ "" ∧ env.cfg.enableClusterDetection then
        trackFundingSource env db address fundingSource fundingReceivedTS
      else db
    (w, db)

/-- `updateNetPosition` (processor.go lines 787-820): window-start from the
configured window, read the existing entry, pre-accumulate into the new row,
then hand the row to `UpsertNetPosition`. -/
def updateNetPosition (env : Env) (db : DBState) (t : Trade) (notional : Rat) : DBState :=
  let windowHrs := env.cfg.netPositionWindowHrs
  let windowStartTS := (t.timestamp.tdiv (windowHrs * 3600)) * (windowHrs * 3600)
  let existingPos := getNetPosition db t.proxyWallet t.conditionID windowStartTS
  let netNotional := if t.side = "SELL" then -notional else notional
  let pos0 : WalletMarketNet :=
    { walletAddress := t.proxyWallet, conditionID := t.conditionID,
      windowStartTS := windowStartTS, netNotionalUSD := netNotional, tradeCount := 1,
      updatedTS := env.now }
  let pos := match existingPos with
    | some e => { pos0 with netNotionalUSD := pos0.netNotionalUSD + e.netNotionalUSD,
                            tradeCount := pos0.tradeCount + e.tradeCount }
    | none => pos0
  upsertNetPosition db pos

/-- `checkTradeVelocity` (processor.go): trades of the wallet inside the
velocity window, plus one for the current trade. -/
def checkTradeVelocity (env : Env) (db : DBState) (walletAddress : String)
    (currentTradeTS : Int) : Int :=
  let lookbackTS := currentTradeTS - env.cfg.velocityWindowMinutes * 60
  (getRecentTradesForWallet db walletAddress lookbackTS).length + 1

/-- `checkNetPositionConcentration` (processor.go): gross BUY and SELL volume
of the wallet on this market inside the window, the current trade included;
the larger side over the total, 0 when the total is 0. -/
def checkNetPositionConcentration (env : Env) (db : DBState)
    (walletAddress conditionID : String) (currentTS : Int) (currentNotional : Rat)
    (currentSide : String) : Rat :=
  let lookbackTS := currentTS - env.cfg.netPositionWindowHrs * 3600
  let recent := getRecentTradesForWallet db walletAddress lookbackTS
  let rel := recent.filter (fun r => r.conditionID = conditionID)
  let buyVolume0 := ((rel.filter (fun r => r.side = "BUY")).map (fun r => r.notionalUSD)).sum
  let sellVolume0 := ((rel.filter (fun r => r.side = "SELL")).map (fun r => r.notionalUSD)).sum
  let buyVolume := if currentSide = "BUY" then buyVolume0 + currentNotional else buyVolume0
  let sellVolume := if currentSide = "BUY" then sellVolume0 else sellVolume0 + currentNotional
  let totalVolume := buyVolume + sellVolume
  if totalVolume = 0 then 0 else max buyVolume sellVolume / totalVolume

/-- `detectCoordinatedTrade` (processor.go): resolve the wallet's funding
source and cluster (singletons never fire); gather the cluster's recent trades
on the same market; flag when the distinct wallets (current included) are ≥ 2
within a 3,600 s span, recording a `coordinated_trades` row on flag. -/
def detectCoordinatedTrade (env : Env) (db : DBState) (t : Trade) (walletAddress : String) :
    Bool × String × DBState :=
  match getWalletFundingSource db walletAddress with
  | none => (false, "", db)
  | some fs =>
    match getWalletClusterBySource db fs.fundingSource with
    | none => (false, "", db)
    | some cluster =>
      if cluster.walletCount ≤ 1 then (false, "", db)
      else
        let walletAddrs := getWalletsByFundingSource db fs.fundingSource
        let lookbackTS := t.timestamp - env.cfg.clusterLookbackHours * 3600
        let recentTrades := getRecentTradesForCluster db walletAddrs lookbackTS
        let sameMarketTrades := recentTrades.filter (fun r => r.conditionID = t.conditionID)
        if sameMarketTrades.length ≥ 1 then
          let firstTS := sameMarketTrades.foldl (fun acc r => min acc r.timestampSec) t.timestamp
          let lastTS := sameMarketTrades.foldl (fun acc r => max acc r.timestampSec) t.timestamp
          let uniqueWallets := (walletAddress :: sameMarketTrades.map (fun r => r.proxyWallet)).dedup
          let totalNotional := calculateNotional t +
            (sameMarketTrades.map (fun r => r.notionalUSD)).sum
          let timeWindowSec := lastTS - firstTS
          if timeWindowSec ≤ 3600 ∧ uniqueWallets.length ≥ 2 then
            (true, cluster.clusterID,
             insertCoordinatedTrade db
               { clusterID := cluster.clusterID, conditionID := t.conditionID,
                 walletCount := uniqueWallets.length, totalNotionalUSD := totalNotional,
                 timeWindowSec := timeWindowSec, firstTradeTS := firstTS,
                 lastTradeTS := lastTS, marketTitle := t.title, createdTS := env.now })
          else (false, "", db)
        else (false, "", db)

/-- `getClusterMultiplier` (processor.go lines 1365-1388): wallet → funding
source → cluster; 3 for ≥ 10 members, 2 for ≥ 5, 1.5 for ≥ 2, else 1. Every
lookup failure yields 1. -/
def getClusterMultiplier (db : DBState) (walletAddress : String) : Rat :=
  match getWalletFundingSource db walletAddress with
  | none => 1
  | some f =>
    match getWalletClusterBySource db f.fundingSource with
    | none => 1
    | some c =>
      if c.walletCount ≥ 10 then 3
      else if c.walletCount ≥ 5 then 2
      else if c.walletCount ≥ 2 then 3/2
      else 1

/-- Go string of a severity (`alerts.Severity` constants). -/
def severityString : Severity → String
  | .info => "INFO"
  | .warn => "WARN"
  | .alert => "ALERT"

/-- `sendAlert` (processor.go): drop inside the per-wallet cooldown window,
else append the alert row (created-at stamped now) and deliver; returns
whether the alert was emitted. -/
def sendAlert (env : Env) (db : DBState) (t : Trade) (w : Wallet) (mi : MarketInfo)
    (notional : Rat) (walletAgeDays : Int) (score : Rat) (severity : Severity) :
    DBState × Bool :=
  let cooldownHit : Bool :=
    match getLastAlertForWallet db w.walletAddress with
    | some lastAlert =>
      if env.now - lastAlert.createdTS < env.cfg.alertCooldownMins * 60 then true else false
    | none => false
  if cooldownHit then (db, false)
  else
    (insertAlert db
      { alertType := severityString severity, walletAddress := w.walletAddress,
        conditionID := t.conditionID, marketTitle := mi.title, marketSlug := mi.slug,
        marketURL := mi.url, side := t.side, outcome := t.outcome, notionalUSD := notional,
        price := t.price, walletAgeDays := walletAgeDays, suspicionScore := score,
        transactionHash := t.transactionHash, tradeTimestampSec := t.timestamp,
        createdTS := env.now }, true)

/-- The observable outcome of one `processTrade` call: the metric status label,
whether an alert was emitted, and (when the wallet-age gate was entered) the
final adjusted score and its severity. -/
structure ProcOutcome where
  status : String
  emitted : Bool
  finalScore : Option Rat
  severity : Option Severity
deriving Repr

/-- The tail of `processTrade` past the dedup and filter early-returns
(processor.go lines 207-581): wallet load-or-create; score; trade-row insert;
wallet and net-position updates; signal gathering; then, gated by wallet age,
multiplier application, severity and the alert path. -/
def processTradeFull (env : Env) (db : DBState) (t : Trade) (marketInfo : MarketInfo)
    (notional : Rat) (tradeHash : String) : DBState × ProcOutcome :=
        let gw := getOrCreateWallet env db t.proxyWallet t.timestamp
        let wallet := gw.1
        let db := gw.2
        let isFirstTrade := wallet.totalTrades = 0
        let walletAgeDays := (t.timestamp - wallet.firstSeenTS).tdiv 86400
        let hoursToClose : Rat :=
          if marketInfo.endDate > 0 then ((marketInfo.endDate - t.timestamp : Int) : Rat) / 3600
          else 0
        let score := calculateSuspicionScore env.cfg notional walletAgeDays hoursToClose
        let db := insertTrade db
          { tradeHash := tradeHash, transactionHash := t.transactionHash,
            conditionID := t.conditionID, proxyWallet := t.proxyWallet,
            timestampSec := t.timestamp, notionalUSD := notional, side := t.side,
            outcome := t.outcome, price := t.price, createdTS := env.now }
        let db := upsertWallet db
          { wallet with totalTrades := wallet.totalTrades + 1,
                        totalVolumeUSD := wallet.totalVolumeUSD + notional,
                        lastActivityTS := t.timestamp, updatedTS := env.now }
        let db := updateNetPosition env db t notional
        let walletStats := getWalletStats db t.proxyWallet
        let winRate : Rat := match walletStats with
          | some s => if s.totalResolvedTrades > 0 then s.winRate else 0
          | none => 0
        let fundingAgeHours := fundingAgeHoursOf wallet
        let fundingAgeMinutes := fundingAgeMinutesOf wallet
        let firstTradeLargeMultiplier : Rat :=
          if isFirstTrade ∧ notional ≥ env.cfg.minTradeUSD then
            if notional ≥ env.cfg.minTradeUSD * 2 then
              match env.walletActivity t.proxyWallet with
              | some activity =>
                if ((activity.filter (fun a => a.type = "TRADE")).length : Int) ≤ 2 then 2 else 1
              | none => 2
            else 2
          else 1
        let flashFundingMultiplier := flashFundingMultiplierOf fundingAgeMinutes
        let velocityCount : Int :=
          if env.cfg.enableVelocityDetection then checkTradeVelocity env db t.proxyWallet t.timestamp
          else 0
        let velocityMultiplier : Rat :=
          if env.cfg.enableVelocityDetection then velocityMultiplierOf env.cfg velocityCount
          else 1
        let liquidityMultiplier := liquidityMultiplierOf (some marketInfo) notional
        let priceConfidenceMultiplier := priceConfidenceMultiplierOf t.price
        let netPosConcentration :=
          checkNetPositionConcentration env db t.proxyWallet t.conditionID t.timestamp notional t.side
        let concentrationMultiplier : Rat := if netPosConcentration > 9/10 then 3/2 else 1
        let coord : Bool × String × DBState :=
          if env.cfg.enableClusterDetection then detectCoordinatedTrade env db t t.proxyWallet
          else (false, "", db)
        let isCoordinated := coord.1
        let db := coord.2.2
        let clusterMultiplier : Rat :=
          if env.cfg.enableClusterDetection then getClusterMultiplier db t.proxyWallet else 1
        if walletAgeDays ≤ env.cfg.newWalletDaysMax then
          let adjustedScore := adjustScore env.cfg score walletStats winRate
            firstTradeLargeMultiplier flashFundingMultiplier liquidityMultiplier
            priceConfidenceMultiplier concentrationMultiplier velocityMultiplier
            clusterMultiplier isCoordinated fundingAgeHours
          let severity := determineSeverity env.cfg adjustedScore
          if severity ≠ .info then
            let sa := sendAlert env db t wallet marketInfo notional walletAgeDays
              adjustedScore severity
            (sa.1, ⟨"success", sa.2, some adjustedScore, some severity⟩)
          else (db, ⟨"success", false, some adjustedScore, some severity⟩)
        else (db, ⟨"success", false, none, none⟩)

/-- `processTrade` (processor.go lines 135-581), in source order: dedup by
fingerprint; market resolve; category, end-date, side, outcome and notional
filters; then `processTradeFull` for the rest of the pipeline. -/
def processTrade (env : Env) (db : DBState) (t : Trade) : DBState × ProcOutcome :=
  let tradeHash := calculateTradeHash t
  if hasTradeSeen db tradeHash then (db, ⟨"duplicate", false, none, none⟩)
  else
    let mr := resolveMarket env db t
    let marketInfo := mr.1
    let db := mr.2
    if isNotInsiderCategory marketInfo.category then (db, ⟨"filtered_sports", false, none, none⟩)
    else if marketInfo.endDate > 0 ∧
        (t.timestamp ≥ marketInfo.endDate ∨ marketInfo.endDate > env.twoMonthsFromNow) then
      (db, ⟨"filtered_closed", false, none, none⟩)
    else if t.side ≠ "BUY" ∧ t.side ≠ "SELL" then (db, ⟨"invalid_side", false, none, none⟩)
    else if t.outcome = "" then (db, ⟨"missing_outcome", false, none, none⟩)
    else
      let notional := calculateNotional t
      if notional < env.cfg.minTradeUSD then (db, ⟨"filtered_size", false, none, none⟩)
      else processTradeFull env db t marketInfo notional tradeHash

/-- The signed contribution of one trade to its wallet's position in the
winning outcome (`updateWalletStatsForResolution`). -/
def tradeOutcomeDelta (winningOutcome : String) (r : TradeSeen) : Rat :=
  if r.side = "BUY" then
    (if r.outcome = winningOutcome then r.notionalUSD else -r.notionalUSD)
  else
    (if r.outcome = winningOutcome then -r.notionalUSD else r.notionalUSD)

/-- `updateWalletStatsForResolution` (processor.go): group the market's trades
by wallet, compute each wallet's net position in the winning outcome, and
update its stats (win iff net > 0, loss iff net < 0, hedged zero is neither). -/
def updateWalletStatsForResolution (env : Env) (db : DBState)
    (conditionID winningOutcome : String) : DBState :=
  let trades := getTradesByConditionID db conditionID
  let walletList := (trades.map (fun r => r.proxyWallet)).dedup
  walletList.foldl (fun db addr =>
    let netPosition :=
      ((trades.filter (fun r => r.proxyWallet = addr)).map (tradeOutcomeDelta winningOutcome)).sum
    let stats0 : WalletStats := match getWalletStats db addr with
      | some s => s
      | none => { walletAddress := addr, totalResolvedTrades := 0, winningTrades := 0,
                  losingTrades := 0, winRate := 0, totalProfitUSD := 0, lastCalculatedTS := 0 }
    let stats1 : WalletStats := { stats0 with totalResolvedTrades := stats0.totalResolvedTrades + 1 }
    let stats2 : WalletStats :=
      if netPosition > 0 then { stats1 with winningTrades := stats1.winningTrades + 1 }
      else if netPosition < 0 then { stats1 with losingTrades := stats1.losingTrades + 1 }
      else stats1
    let stats3 : WalletStats :=
      if stats2.totalResolvedTrades > 0 then
        { stats2 with winRate := (stats2.winningTrades : Rat) / (stats2.totalResolvedTrades : Rat) }
      else stats2
    upsertWalletStats db { stats3 with lastCalculatedTS := env.now }) db

/-- One iteration of `RecalculateWinRates` for a single market: skip when
already resolved, when the Gamma fetch fails, when the market is open, or when
no winner is determinable; else record the resolution and attribute stats. -/
def resolveOneMarket (env : Env) (db : DBState) (conditionID : String) : DBState :=
  match getMarketResolution db conditionID with
  | some _ => db
  | none =>
    match env.gammaMarket conditionID with
    | none => db
    | some m =>
      if ¬ m.closed then db
      else
        let winningOutcome := determineWinner m.outcomes m.outcomePrices
        if winningOutcome = "" then db
        else
          let db := upsertMarketResolution db
            { conditionID := conditionID, winningOutcome := winningOutcome,
              resolvedTS := env.now, marketTitle := m.question }
          updateWalletStatsForResolution env db conditionID winningOutcome

/-- `RecalculateWinRates` (processor.go): sweep every distinct market of the
trade log. -/
def recalculateWinRates (env : Env) (db : DBState) : DBState :=
  (getAllConditionIDs db).foldl (fun d c => resolveOneMarket env d c) db

/-- Database states reachable by the program's own operations, starting from a
fresh deployment: trade processing, the win-rate reconciler, and checkpoint
writes. -/
inductive Reachable : DBState → Prop where
  | init : Reachable initialState
  | trade (env : Env) (t : Trade) {db : DBState} :
      Reachable db → Reachable (processTrade env db t).1
  | winRates (env : Env) {db : DBState} :
      Reachable db → Reachable (recalculateWinRates env db)
  | checkpoint (key value : String) {db : DBState} :
      Reachable db → Reachable (setState db key value)

/-! ### Shared concrete fixtures for the evaluation theorems -/

/-- A production-like configuration for concrete evaluations (warn 5,000,
alert 10,000, 7-day wallet gate, 24 h ledger window, H = 48). -/
def testCfg : Config :=
  { minTradeUSD := 1000, newWalletDaysMax := 7, suspicionScoreWarn := 5000,
    suspicionScoreAlert := 10000, netPositionWindowHrs := 24, alertCooldownMins := 60,
    timeToCloseHoursMax := 48, minWinRateThreshold := 3/4, velocityWindowMinutes := 10,
    velocityThreshold := 3, enableVelocityDetection := true, enableClusterDetection := true,
    clusterLookbackHours := 24 }

/-- A concrete environment in which every upstream call fails. -/
def testEnv : Env :=
  { cfg := testCfg, now := 1000000, twoMonthsFromNow := 6184000,
    firstActivity := fun _ => none, walletActivity := fun _ => none,
    gammaMarket := fun _ => none }

/-- A BUY trade of wallet `0xw` on market `0xc` with the given transaction
hash, timestamp and notional (carried in `usdcSize`). -/
def buyTrade (hash : String) (ts : Int) (n : Rat) : Trade :=
  { proxyWallet := "0xw", side := "BUY", conditionID := "0xc", size := 0, price := 1/2,
    timestamp := ts, outcome := "YES", title := "T", slug := "t", transactionHash := hash,
    usdcSize := n }

/-- A minimal market-info fixture with the given liquidity. -/
def liquidityMarket (liq : Rat) : MarketInfo :=
  { title := "", slug := "", url := "", category := "", endDate := 0,
    liquidityNum := liq, volumeNum := 0 }

/-! ### Theorems -/

/-- **C1.** For every trade, the score before any signal multiplier equals
`base × m_ttc` with `base = notional / max(walletAgeDays, 1)` and
`m_ttc = 1 + (H − h)/H · 4` on `(0, H]`, else 1; and a trade that triggers no
other signal (no stats row, all signal multipliers 1, not coordinated, funding
age 0) keeps exactly that score through the multiplier-application sequence. -/
theorem score_before_signals_eq_base_mul_ttc :
    (∀ (cfg : Config) (notional : Rat) (walletAgeDays : Int) (hoursToClose : Rat),
      calculateSuspicionScore cfg notional walletAgeDays hoursToClose =
        specBaseScore notional walletAgeDays * specTTCMultiplier cfg hoursToClose) ∧
    (∀ (cfg : Config) (score : Rat),
      adjustScore cfg score none 0 1 1 1 1 1 1 1 false 0 = score) := by
  constructor
  · intro cfg notional walletAgeDays hoursToClose
    unfold calculateSuspicionScore specBaseScore specTTCMultiplier
    split <;> ring
  · intro cfg score
    simp [adjustScore]

/-- **C2.** The stored net-position does NOT equal the signed sum of the
trades of its key: `updateNetPosition` pre-accumulates the existing entry into
the row it hands to `UpsertNetPosition`, and the upsert adds that row onto the
stored value again. Two BUY trades of 10 each leave the stored net at
2·d₁ + d₂ = 30 (not 20) and the count at 3 (not 2). -/
theorem netPosition_second_trade_double_counts :
    ∃ row : WalletMarketNet,
      getNetPosition
        (updateNetPosition testEnv
          (updateNetPosition testEnv initialState (buyTrade "h1" 1000 10) 10)
          (buyTrade "h2" 2000 10) 10)
        "0xw" "0xc" 0 = some row ∧
      row.netNotionalUSD = 30 ∧ row.tradeCount = 3 ∧ ¬ row.netNotionalUSD = 10 + 10 := by
  refine ⟨{ walletAddress := "0xw", conditionID := "0xc", windowStartTS := 0,
            netNotionalUSD := 30, tradeCount := 3, updatedTS := 1000000 },
          ?_, by norm_num, by norm_num, by norm_num⟩
  simp +decide [updateNetPosition, upsertNetPosition, getNetPosition, initialState, buyTrade,
    testEnv, testCfg, List.find?]
  norm_num

/-- **C3.** Processing a second distinct trade of a wallet does NOT increment
the stored total-trades by one: `processTrade` passes the incremented absolute
count to `UpsertWallet`, whose update branch adds it onto the stored value.
After two distinct trades the stored total-trades is 3, not 2. -/
theorem wallet_totalTrades_double_counts :
    ∃ w : Wallet,
      getWallet
        ((processTrade testEnv
          ((processTrade testEnv initialState (buyTrade "h1" 1000 1500)).1)
          (buyTrade "h2" 101000 1500)).1) "0xw" = some w ∧
      w.totalTrades = 3 ∧ ¬ w.totalTrades = 2 := by
  have h1 : (processTrade testEnv initialState (buyTrade "h1" 1000 1500)).1 =
      { appState := [],
        tradesSeen := [
          { tradeHash := "h1", transactionHash := "h1", conditionID := "0xc",
            proxyWallet := "0xw", timestampSec := 1000, notionalUSD := 1500, side := "BUY",
            outcome := "YES", price := 1/2, createdTS := 1000000 }],
        wallets := [
          { walletAddress := "0xw", firstSeenTS := 1000, fundingReceivedTS := 0,
            totalTrades := 1, totalVolumeUSD := 1500, lastActivityTS := 1000,
            updatedTS := 1000000 }],
        alerts := [],
        netPositions := [
          { walletAddress := "0xw", conditionID := "0xc", windowStartTS := 0,
            netNotionalUSD := 1500, tradeCount := 1, updatedTS := 1000000 }],
        marketMap := [], marketResolutions := [], walletStats := [], fundingSources := [],
        clusters := [], coordinatedTrades := [] } := by
    simp +decide [processTrade, processTradeFull, resolveMarket, getOrCreateWallet, getWallet, upsertWallet,
      insertTrade, updateNetPosition, upsertNetPosition, getNetPosition, getWalletStats,
      checkTradeVelocity, getRecentTradesForWallet, checkNetPositionConcentration,
      detectCoordinatedTrade, getWalletFundingSource, getClusterMultiplier,
      calculateNotional, calculateTradeHash, hasTradeSeen, isNotInsiderCategory,
      calculateSuspicionScore, adjustScore, determineSeverity, sendAlert,
      getLastAlertForWallet, insertAlert, fundingAgeHoursOf, fundingAgeMinutesOf,
      flashFundingMultiplierOf, velocityMultiplierOf, liquidityMultiplierOf,
      priceConfidenceMultiplierOf, getMarketMap, initialState, buyTrade, testEnv, testCfg,
      Int.tdiv]
    norm_num
  rw [h1]
  refine ⟨{ walletAddress := "0xw", firstSeenTS := 1000, fundingReceivedTS := 0,
            totalTrades := 3, totalVolumeUSD := 4500, lastActivityTS := 101000,
            updatedTS := 1000000 }, ?_, by norm_num, by norm_num⟩
  simp +decide [processTrade, processTradeFull, resolveMarket, getOrCreateWallet, getWallet, upsertWallet,
    insertTrade, updateNetPosition, upsertNetPosition, getNetPosition, getWalletStats,
    checkTradeVelocity, getRecentTradesForWallet, checkNetPositionConcentration,
    detectCoordinatedTrade, getWalletFundingSource, getClusterMultiplier,
    calculateNotional, calculateTradeHash, hasTradeSeen, isNotInsiderCategory,
    calculateSuspicionScore, adjustScore, determineSeverity, sendAlert,
    getLastAlertForWallet, insertAlert, fundingAgeHoursOf, fundingAgeMinutesOf,
    flashFundingMultiplierOf, velocityMultiplierOf, liquidityMultiplierOf,
    priceConfidenceMultiplierOf, getMarketMap, initialState, buyTrade, testEnv, testCfg,
    Int.tdiv]
  norm_num

/-- **C4.** `determineWinner` accepts only the JSON-array serialization: on the
comma-delimited form `"YES,NO"` / `"0.95,0.05"` (whose winner its own test
suite expects to be `"YES"`) it returns `""` because `json.Unmarshal` rejects
the input, while the JSON-array form with an exact 0.95 price does return the
winner. -/
theorem determineWinner_rejects_delimited_form :
    determineWinner "YES,NO" "0.95,0.05" = "" ∧
    determineWinner "[\"YES\",\"NO\"]" "[\"0.95\",\"0.05\"]" = "YES" := by
  constructor
  · decide
  · have h1 : parseJSONStringArray "[\"YES\",\"NO\"]" = some ["YES", "NO"] := by decide
    have h2 : parseJSONStringArray "[\"0.95\",\"0.05\"]" = some ["0.95", "0.05"] := by decide
    have h3 : parseFloat? "0.95" = some (19/20) := by
      simp +decide [parseFloat?, takeDigits, digitsToNat]
      norm_num
    simp only [determineWinner, h1, h2]
    norm_num [List.find?, List.zip, List.zipWith, h3]
    rintro (h | h) <;> exact absurd h (by decide)

/-- **C8.** The liquidity multiplier of `processTrade` at the exact 5%
boundary: the outer guard is strict (`ratio > 0.05`), so a trade of exactly
5% of liquidity gets multiplier 1 (not the 1.2 the spec and the code's own
comment promise); just above 5% gives 1.2, the other tiers are inclusive, and
zero or unknown liquidity gives 1. -/
theorem liquidityMultiplier_exact_five_percent_boundary :
    liquidityMultiplierOf (some (liquidityMarket 100000)) 5000 = 1 ∧
    ¬ liquidityMultiplierOf (some (liquidityMarket 100000)) 5000 = 6/5 ∧
    liquidityMultiplierOf (some (liquidityMarket 100000)) 5001 = 6/5 ∧
    liquidityMultiplierOf (some (liquidityMarket 100000)) 10000 = 3/2 ∧
    liquidityMultiplierOf (some (liquidityMarket 100000)) 20000 = 2 ∧
    liquidityMultiplierOf (some (liquidityMarket 100000)) 50000 = 3 ∧
    liquidityMultiplierOf (some (liquidityMarket 0)) 5000 = 1 ∧
    liquidityMultiplierOf none 5000 = 1 := by
  refine ⟨?_, ?_, ?_, ?_, ?_, ?_, ?_, ?_⟩ <;> norm_num [liquidityMultiplierOf, liquidityMarket]

/-! ### Fingerprint evaluation (C7) -/

/-- Evaluation rule for the 6-decimal rounding, for scaled values whose
fractional part is below one half. -/
lemma roundNearestEven_eval (q : Rat) (z : Int) (h1 : (z : Rat) ≤ q) (h2 : q < z + 1)
    (h3 : q - z < 1/2) : roundNearestEven q = z := by
  have hf : ⌊q⌋ = z := Int.floor_eq_iff.mpr ⟨h1, by exact_mod_cast h2⟩
  simp only [roundNearestEven, hf]
  rw [if_neg (by push_neg; linarith), if_pos h3]

/-- Absolute value of a non-negative rational. -/
lemma abs_eval (q : Rat) (h : 0 ≤ q) : |q| = q := abs_of_nonneg h

/-- `%.6f` of 1. -/
lemma formatFixed6_one : formatFixed6 1 = "1.000000" := by
  have h : roundNearestEven (|(1 : Rat)| * 1000000) = 1000000 := by
    rw [abs_eval _ (by norm_num)]
    apply roundNearestEven_eval <;> norm_num
  rw [formatFixed6, h]
  norm_num
  decide

/-- `%.6f` of 1/2. -/
lemma formatFixed6_half : formatFixed6 (1/2) = "0.500000" := by
  have h : roundNearestEven (|(1/2 : Rat)| * 1000000) = 500000 := by
    rw [abs_eval _ (by norm_num)]
    apply roundNearestEven_eval <;> norm_num
  rw [formatFixed6, h]
  norm_num
  decide

/-- `%.6f` collapses a 10⁻⁷ increment: 1 + 10⁻⁷ also prints as `1.000000`. -/
lemma formatFixed6_eps7 : formatFixed6 (1 + 1/10000000) = "1.000000" := by
  have h : roundNearestEven (|(1 + 1/10000000 : Rat)| * 1000000) = 1000000 := by
    rw [abs_eval _ (by norm_num)]
    apply roundNearestEven_eval <;> norm_num
  rw [formatFixed6, h]
  norm_num
  decide

/-- `%.6f` of 1 + 10⁻⁶ prints as `1.000001`. -/
lemma formatFixed6_eps6 : formatFixed6 (1 + 1/1000000) = "1.000001" := by
  have h : roundNearestEven (|(1 + 1/1000000 : Rat)| * 1000000) = 1000001 := by
    rw [abs_eval _ (by norm_num)]
    apply roundNearestEven_eval <;> norm_num
  rw [formatFixed6, h]
  norm_num
  decide

/-- A concrete trade with an empty transaction hash, size 1. -/
def c7base : Trade :=
  { proxyWallet := "0xabc", side := "BUY", conditionID := "0xcond", size := 1, price := 1/2,
    timestamp := 1700000000, outcome := "YES", title := "T", slug := "t",
    transactionHash := "", usdcSize := 600 }

/-- `c7base` with its size increased by exactly 10⁻⁷. -/
def c7eps7 : Trade := { c7base with size := c7base.size + 1/10000000 }

/-- `c7base` with its size increased by exactly 10⁻⁶. -/
def c7eps6 : Trade := { c7base with size := c7base.size + 1/1000000 }

/-- The canonical string of `c7base`. -/
lemma pre_c7base : tradeHashPreimage c7base = "0xabc:0xcond:1700000000:1.000000:0.500000" := by
  rw [tradeHashPreimage]
  simp only [c7base]
  rw [formatFixed6_one, formatFixed6_half]
  decide

/-- The canonical string of `c7eps7` (the 10⁻⁷ increment is invisible). -/
lemma pre_c7eps7 : tradeHashPreimage c7eps7 = "0xabc:0xcond:1700000000:1.000000:0.500000" := by
  rw [tradeHashPreimage]
  simp only [c7eps7, c7base]
  rw [formatFixed6_eps7, formatFixed6_half]
  decide

/-- The canonical string of `c7eps6`. -/
lemma pre_c7eps6 : tradeHashPreimage c7eps6 = "0xabc:0xcond:1700000000:1.000001:0.500000" := by
  rw [tradeHashPreimage]
  simp only [c7eps6, c7base]
  rw [formatFixed6_eps6, formatFixed6_half]
  decide

/-- **C7 (counterexample).** Two trades with empty transaction hash that are
identical except for a size difference of exactly 10⁻⁷ produce the SAME
fingerprint: the canonical string rounds the size to six decimals, so the
increment is invisible to the digest. -/
theorem tradeHash_size_1e7_same_fingerprint :
    c7eps7 = { c7base with size := c7base.size + 1/10000000 } ∧
    c7base.transactionHash = "" ∧ c7eps7.transactionHash = "" ∧
    calculateTradeHash c7base = calculateTradeHash c7eps7 := by
  refine ⟨rfl, rfl, rfl, ?_⟩
  rw [calculateTradeHash, calculateTradeHash]
  rw [if_neg (by simp [c7base]), if_neg (by simp [c7eps7, c7base])]
  rw [pre_c7base, pre_c7eps7]

/-- **C7 (amended).** The fingerprint is the transaction hash verbatim when
non-empty and otherwise the hex SHA-256 of the canonical
`wallet:market:timestamp:size(6dp):price(6dp)` string; a size difference of
10⁻⁶ — the canonical precision — changes the fingerprint (witnessed at sizes
1.000000 vs 1.000001), whereas a 10⁻⁷ difference need not. -/
theorem tradeHash_verbatim_or_digest :
    (∀ t : Trade, t.transactionHash ≠ "" → calculateTradeHash t = t.transactionHash) ∧
    (∀ t : Trade, t.transactionHash = "" →
      calculateTradeHash t = hexEncode (sha256Bytes (strBytes (tradeHashPreimage t)))) ∧
    (c7eps6 = { c7base with size := c7base.size + 1/1000000 } ∧
      calculateTradeHash c7base ≠ calculateTradeHash c7eps6) := by
  refine ⟨?_, ?_, rfl, ?_⟩
  · intro t h
    rw [calculateTradeHash, if_pos h]
  · intro t h
    rw [calculateTradeHash, if_neg (by simp [h])]
  · rw [calculateTradeHash, calculateTradeHash]
    rw [if_neg (by simp [c7base]), if_neg (by simp [c7eps6, c7base])]
    rw [pre_c7base, pre_c7eps6]
    decide

/-- Witness for the hypotheses of `tradeHash_verbatim_or_digest`: a concrete
trade with a non-empty transaction hash, and a concrete one with it empty. -/
theorem tradeHash_verbatim_or_digest_witness :
    ((buyTrade "h1" 1000 10).transactionHash ≠ "" ∧
      calculateTradeHash (buyTrade "h1" 1000 10) = "h1") ∧
    (c7base.transactionHash = "" ∧
      calculateTradeHash c7base = hexEncode (sha256Bytes (strBytes (tradeHashPreimage c7base)))) :=
  ⟨⟨by decide, tradeHash_verbatim_or_digest.1 (buyTrade "h1" 1000 10) (by decide)⟩,
   ⟨rfl, tradeHash_verbatim_or_digest.2.1 c7base rfl⟩⟩

/-! ### Field-preservation lemmas: each storage operation touches one table -/

@[simp] lemma insertTrade_tradesSeen (db : DBState) (r : TradeSeen) :
    (insertTrade db r).tradesSeen = r :: db.tradesSeen := rfl

@[simp] lemma insertTrade_wallets (db : DBState) (r : TradeSeen) :
    (insertTrade db r).wallets = db.wallets := rfl

@[simp] lemma insertTrade_fundingSources (db : DBState) (r : TradeSeen) :
    (insertTrade db r).fundingSources = db.fundingSources := rfl

@[simp] lemma insertTrade_clusters (db : DBState) (r : TradeSeen) :
    (insertTrade db r).clusters = db.clusters := rfl

@[simp] lemma insertTrade_coordinatedTrades (db : DBState) (r : TradeSeen) :
    (insertTrade db r).coordinatedTrades = db.coordinatedTrades := rfl

@[simp] lemma insertTrade_netPositions (db : DBState) (r : TradeSeen) :
    (insertTrade db r).netPositions = db.netPositions := rfl

@[simp] lemma upsertWallet_tradesSeen (db : DBState) (w : Wallet) :
    (upsertWallet db w).tradesSeen = db.tradesSeen := by
  unfold upsertWallet; cases getWallet db w.walletAddress <;> rfl

@[simp] lemma upsertWallet_netPositions (db : DBState) (w : Wallet) :
    (upsertWallet db w).netPositions = db.netPositions := by
  unfold upsertWallet; cases getWallet db w.walletAddress <;> rfl

@[simp] lemma upsertWallet_alerts (db : DBState) (w : Wallet) :
    (upsertWallet db w).alerts = db.alerts := by
  unfold upsertWallet; cases getWallet db w.walletAddress <;> rfl

@[simp] lemma upsertWallet_fundingSources (db : DBState) (w : Wallet) :
    (upsertWallet db w).fundingSources = db.fundingSources := by
  unfold upsertWallet; cases getWallet db w.walletAddress <;> rfl

@[simp] lemma upsertWallet_clusters (db : DBState) (w : Wallet) :
    (upsertWallet db w).clusters = db.clusters := by
  unfold upsertWallet; cases getWallet db w.walletAddress <;> rfl

@[simp] lemma upsertWallet_coordinatedTrades (db : DBState) (w : Wallet) :
    (upsertWallet db w).coordinatedTrades = db.coordinatedTrades := by
  unfold upsertWallet; cases getWallet db w.walletAddress <;> rfl

@[simp] lemma insertAlert_tradesSeen (db : DBState) (a : Alert) :
    (insertAlert db a).tradesSeen = db.tradesSeen := rfl

@[simp] lemma insertAlert_wallets (db : DBState) (a : Alert) :
    (insertAlert db a).wallets = db.wallets := rfl

@[simp] lemma insertAlert_netPositions (db : DBState) (a : Alert) :
    (insertAlert db a).netPositions = db.netPositions := rfl

@[simp] lemma insertAlert_fundingSources (db : DBState) (a : Alert) :
    (insertAlert db a).fundingSources = db.fundingSources := rfl

@[simp] lemma insertAlert_clusters (db : DBState) (a : Alert) :
    (insertAlert db a).clusters = db.clusters := rfl

@[simp] lemma insertAlert_coordinatedTrades (db : DBState) (a : Alert) :
    (insertAlert db a).coordinatedTrades = db.coordinatedTrades := rfl

@[simp] lemma upsertNetPosition_tradesSeen (db : DBState) (p : WalletMarketNet) :
    (upsertNetPosition db p).tradesSeen = db.tradesSeen := by
  unfold upsertNetPosition
  cases getNetPosition db p.walletAddress p.conditionID p.windowStartTS <;> rfl

@[simp] lemma upsertNetPosition_wallets (db : DBState) (p : WalletMarketNet) :
    (upsertNetPosition db p).wallets = db.wallets := by
  unfold upsertNetPosition
  cases getNetPosition db p.walletAddress p.conditionID p.windowStartTS <;> rfl

@[simp] lemma upsertNetPosition_alerts (db : DBState) (p : WalletMarketNet) :
    (upsertNetPosition db p).alerts = db.alerts := by
  unfold upsertNetPosition
  cases getNetPosition db p.walletAddress p.conditionID p.windowStartTS <;> rfl

@[simp] lemma upsertNetPosition_fundingSources (db : DBState) (p : WalletMarketNet) :
    (upsertNetPosition db p).fundingSources = db.fundingSources := by
  unfold upsertNetPosition
  cases getNetPosition db p.walletAddress p.conditionID p.windowStartTS <;> rfl

@[simp] lemma upsertNetPosition_clusters (db : DBState) (p : WalletMarketNet) :
    (upsertNetPosition db p).clusters = db.clusters := by
  unfold upsertNetPosition
  cases getNetPosition db p.walletAddress p.conditionID p.windowStartTS <;> rfl

@[simp] lemma upsertNetPosition_coordinatedTrades (db : DBState) (p : WalletMarketNet) :
    (upsertNetPosition db p).coordinatedTrades = db.coordinatedTrades := by
  unfold upsertNetPosition
  cases getNetPosition db p.walletAddress p.conditionID p.windowStartTS <;> rfl

@[simp] lemma upsertMarketMap_tradesSeen (db : DBState) (m : MarketMap) :
    (upsertMarketMap db m).tradesSeen = db.tradesSeen := by
  unfold upsertMarketMap; cases getMarketMap db m.conditionID <;> rfl

@[simp] lemma upsertMarketMap_wallets (db : DBState) (m : MarketMap) :
    (upsertMarketMap db m).wallets = db.wallets := by
  unfold upsertMarketMap; cases getMarketMap db m.conditionID <;> rfl

@[simp] lemma upsertMarketMap_netPositions (db : DBState) (m : MarketMap) :
    (upsertMarketMap db m).netPositions = db.netPositions := by
  unfold upsertMarketMap; cases getMarketMap db m.conditionID <;> rfl

@[simp] lemma upsertMarketMap_alerts (db : DBState) (m : MarketMap) :
    (upsertMarketMap db m).alerts = db.alerts := by
  unfold upsertMarketMap; cases getMarketMap db m.conditionID <;> rfl

@[simp] lemma upsertMarketMap_fundingSources (db : DBState) (m : MarketMap) :
    (upsertMarketMap db m).fundingSources = db.fundingSources := by
  unfold upsertMarketMap; cases getMarketMap db m.conditionID <;> rfl

@[simp] lemma upsertMarketMap_clusters (db : DBState) (m : MarketMap) :
    (upsertMarketMap db m).clusters = db.clusters := by
  unfold upsertMarketMap; cases getMarketMap db m.conditionID <;> rfl

@[simp] lemma upsertMarketMap_coordinatedTrades (db : DBState) (m : MarketMap) :
    (upsertMarketMap db m).coordinatedTrades = db.coordinatedTrades := by
  unfold upsertMarketMap; cases getMarketMap db m.conditionID <;> rfl

@[simp] lemma upsertMarketResolution_wallets (db : DBState) (m : MarketResolution) :
    (upsertMarketResolution db m).wallets = db.wallets := by
  unfold upsertMarketResolution; cases getMarketResolution db m.conditionID <;> rfl

@[simp] lemma upsertMarketResolution_fundingSources (db : DBState) (m : MarketResolution) :
    (upsertMarketResolution db m).fundingSources = db.fundingSources := by
  unfold upsertMarketResolution; cases getMarketResolution db m.conditionID <;> rfl

@[simp] lemma upsertMarketResolution_clusters (db : DBState) (m : MarketResolution) :
    (upsertMarketResolution db m).clusters = db.clusters := by
  unfold upsertMarketResolution; cases getMarketResolution db m.conditionID <;> rfl

@[simp] lemma upsertMarketResolution_coordinatedTrades (db : DBState) (m : MarketResolution) :
    (upsertMarketResolution db m).coordinatedTrades = db.coordinatedTrades := by
  unfold upsertMarketResolution; cases getMarketResolution db m.conditionID <;> rfl

@[simp] lemma upsertWalletStats_wallets (db : DBState) (s : WalletStats) :
    (upsertWalletStats db s).wallets = db.wallets := by
  unfold upsertWalletStats; cases getWalletStats db s.walletAddress <;> rfl

@[simp] lemma upsertWalletStats_fundingSources (db : DBState) (s : WalletStats) :
    (upsertWalletStats db s).fundingSources = db.fundingSources := by
  unfold upsertWalletStats; cases getWalletStats db s.walletAddress <;> rfl

@[simp] lemma upsertWalletStats_clusters (db : DBState) (s : WalletStats) :
    (upsertWalletStats db s).clusters = db.clusters := by
  unfold upsertWalletStats; cases getWalletStats db s.walletAddress <;> rfl

@[simp] lemma upsertWalletStats_coordinatedTrades (db : DBState) (s : WalletStats) :
    (upsertWalletStats db s).coordinatedTrades = db.coordinatedTrades := by
  unfold upsertWalletStats; cases getWalletStats db s.walletAddress <;> rfl

@[simp] lemma upsertWalletFundingSource_tradesSeen (db : DBState) (f : WalletFundingSource) :
    (upsertWalletFundingSource db f).tradesSeen = db.tradesSeen := by
  unfold upsertWalletFundingSource; cases getWalletFundingSource db f.walletAddress <;> rfl

@[simp] lemma upsertWalletFundingSource_wallets (db : DBState) (f : WalletFundingSource) :
    (upsertWalletFundingSource db f).wallets = db.wallets := by
  unfold upsertWalletFundingSource; cases getWalletFundingSource db f.walletAddress <;> rfl

@[simp] lemma upsertWalletCluster_tradesSeen (db : DBState) (c : WalletCluster) :
    (upsertWalletCluster db c).tradesSeen = db.tradesSeen := by
  unfold upsertWalletCluster
  cases db.clusters.find? (fun e => e.clusterID = c.clusterID) <;> rfl

@[simp] lemma upsertWalletCluster_wallets (db : DBState) (c : WalletCluster) :
    (upsertWalletCluster db c).wallets = db.wallets := by
  unfold upsertWalletCluster
  cases db.clusters.find? (fun e => e.clusterID = c.clusterID) <;> rfl

@[simp] lemma insertCoordinatedTrade_tradesSeen (db : DBState) (c : CoordinatedTrade) :
    (insertCoordinatedTrade db c).tradesSeen = db.tradesSeen := rfl

@[simp] lemma insertCoordinatedTrade_wallets (db : DBState) (c : CoordinatedTrade) :
    (insertCoordinatedTrade db c).wallets = db.wallets := rfl

@[simp] lemma insertCoordinatedTrade_netPositions (db : DBState) (c : CoordinatedTrade) :
    (insertCoordinatedTrade db c).netPositions = db.netPositions := rfl

@[simp] lemma insertCoordinatedTrade_alerts (db : DBState) (c : CoordinatedTrade) :
    (insertCoordinatedTrade db c).alerts = db.alerts := rfl

@[simp] lemma setState_wallets (db : DBState) (k v : String) :
    (setState db k v).wallets = db.wallets := by
  unfold setState; cases db.appState.find? (fun p => p.1 = k) <;> rfl

@[simp] lemma setState_fundingSources (db : DBState) (k v : String) :
    (setState db k v).fundingSources = db.fundingSources := by
  unfold setState; cases db.appState.find? (fun p => p.1 = k) <;> rfl

@[simp] lemma setState_clusters (db : DBState) (k v : String) :
    (setState db k v).clusters = db.clusters := by
  unfold setState; cases db.appState.find? (fun p => p.1 = k) <;> rfl

@[simp] lemma setState_coordinatedTrades (db : DBState) (k v : String) :
    (setState db k v).coordinatedTrades = db.coordinatedTrades := by
  unfold setState; cases db.appState.find? (fun p => p.1 = k) <;> rfl

/-- A projection that every step of a fold preserves is preserved by the fold. -/
lemma foldl_proj_preserved {α β : Type} (g : DBState → β) (f : DBState → α → DBState)
    (h : ∀ d a, g (f d a) = g d) :
    ∀ (l : List α) (d : DBState), g (l.foldl f d) = g d := by
  intro l
  induction l with
  | nil => intro d; rfl
  | cons a l ih => intro d; rw [List.foldl_cons, ih, h]

@[simp] lemma resolveMarket_tradesSeen (env : Env) (db : DBState) (t : Trade) :
    (resolveMarket env db t).2.tradesSeen = db.tradesSeen := by
  simp only [resolveMarket]
  repeat' split
  all_goals first | rfl | simp

@[simp] lemma resolveMarket_wallets (env : Env) (db : DBState) (t : Trade) :
    (resolveMarket env db t).2.wallets = db.wallets := by
  simp only [resolveMarket]
  repeat' split
  all_goals first | rfl | simp

@[simp] lemma resolveMarket_netPositions (env : Env) (db : DBState) (t : Trade) :
    (resolveMarket env db t).2.netPositions = db.netPositions := by
  simp only [resolveMarket]
  repeat' split
  all_goals first | rfl | simp

@[simp] lemma resolveMarket_alerts (env : Env) (db : DBState) (t : Trade) :
    (resolveMarket env db t).2.alerts = db.alerts := by
  simp only [resolveMarket]
  repeat' split
  all_goals first | rfl | simp

@[simp] lemma resolveMarket_fundingSources (env : Env) (db : DBState) (t : Trade) :
    (resolveMarket env db t).2.fundingSources = db.fundingSources := by
  simp only [resolveMarket]
  repeat' split
  all_goals first | rfl | simp

@[simp] lemma resolveMarket_clusters (env : Env) (db : DBState) (t : Trade) :
    (resolveMarket env db t).2.clusters = db.clusters := by
  simp only [resolveMarket]
  repeat' split
  all_goals first | rfl | simp

@[simp] lemma resolveMarket_coordinatedTrades (env : Env) (db : DBState) (t : Trade) :
    (resolveMarket env db t).2.coordinatedTrades = db.coordinatedTrades := by
  simp only [resolveMarket]
  repeat' split
  all_goals first | rfl | simp

@[simp] lemma trackFundingSource_tradesSeen (env : Env) (db : DBState) (w s : String) (ts : Int) :
    (trackFundingSource env db w s ts).tradesSeen = db.tradesSeen := by
  simp only [trackFundingSource]
  split
  all_goals simp

@[simp] lemma trackFundingSource_wallets (env : Env) (db : DBState) (w s : String) (ts : Int) :
    (trackFundingSource env db w s ts).wallets = db.wallets := by
  simp only [trackFundingSource]
  split
  all_goals simp

/-- `GetFromAddress` always returns the empty string, so `getOrCreateWallet`
never reaches `trackFundingSource`: the branch guard is decided false. -/
lemma getOrCreateWallet_no_funding_branch (env : Env) (db : DBState) (a : String) (ts : Int) :
    (getOrCreateWallet env db a ts).2 =
      match getWallet db a with
      | some _ => db
      | none =>
        upsertWallet db
          { walletAddress := a,
            firstSeenTS := match env.firstActivity a with | none => ts | some e => e.timestamp,
            fundingReceivedTS := match env.firstActivity a with | none => 0 | some e => e.timestamp,
            totalTrades := 0, totalVolumeUSD := 0, lastActivityTS := ts, updatedTS := env.now } := by
  unfold getOrCreateWallet
  cases getWallet db a
  · cases env.firstActivity a <;> simp [ActivityEvent.getFromAddress]
  · rfl

@[simp] lemma getOrCreateWallet_tradesSeen (env : Env) (db : DBState) (a : String) (ts : Int) :
    (getOrCreateWallet env db a ts).2.tradesSeen = db.tradesSeen := by
  rw [getOrCreateWallet_no_funding_branch]
  cases getWallet db a <;> simp

@[simp] lemma getOrCreateWallet_netPositions (env : Env) (db : DBState) (a : String) (ts : Int) :
    (getOrCreateWallet env db a ts).2.netPositions = db.netPositions := by
  rw [getOrCreateWallet_no_funding_branch]
  cases getWallet db a <;> simp

@[simp] lemma getOrCreateWallet_alerts (env : Env) (db : DBState) (a : String) (ts : Int) :
    (getOrCreateWallet env db a ts).2.alerts = db.alerts := by
  rw [getOrCreateWallet_no_funding_branch]
  cases getWallet db a <;> simp

@[simp] lemma getOrCreateWallet_fundingSources (env : Env) (db : DBState) (a : String) (ts : Int) :
    (getOrCreateWallet env db a ts).2.fundingSources = db.fundingSources := by
  rw [getOrCreateWallet_no_funding_branch]
  cases getWallet db a <;> simp

@[simp] lemma getOrCreateWallet_clusters (env : Env) (db : DBState) (a : String) (ts : Int) :
    (getOrCreateWallet env db a ts).2.clusters = db.clusters := by
  rw [getOrCreateWallet_no_funding_branch]
  cases getWallet db a <;> simp

@[simp] lemma getOrCreateWallet_coordinatedTrades (env : Env) (db : DBState) (a : String) (ts : Int) :
    (getOrCreateWallet env db a ts).2.coordinatedTrades = db.coordinatedTrades := by
  rw [getOrCreateWallet_no_funding_branch]
  cases getWallet db a <;> simp

@[simp] lemma updateNetPosition_tradesSeen (env : Env) (db : DBState) (t : Trade) (n : Rat) :
    (updateNetPosition env db t n).tradesSeen = db.tradesSeen := by
  unfold updateNetPosition; simp

@[simp] lemma updateNetPosition_wallets (env : Env) (db : DBState) (t : Trade) (n : Rat) :
    (updateNetPosition env db t n).wallets = db.wallets := by
  unfold updateNetPosition; simp

@[simp] lemma updateNetPosition_alerts (env : Env) (db : DBState) (t : Trade) (n : Rat) :
    (updateNetPosition env db t n).alerts = db.alerts := by
  unfold updateNetPosition; simp

@[simp] lemma updateNetPosition_fundingSources (env : Env) (db : DBState) (t : Trade) (n : Rat) :
    (updateNetPosition env db t n).fundingSources = db.fundingSources := by
  unfold updateNetPosition; simp

@[simp] lemma updateNetPosition_clusters (env : Env) (db : DBState) (t : Trade) (n : Rat) :
    (updateNetPosition env db t n).clusters = db.clusters := by
  unfold updateNetPosition; simp

@[simp] lemma updateNetPosition_coordinatedTrades (env : Env) (db : DBState) (t : Trade) (n : Rat) :
    (updateNetPosition env db t n).coordinatedTrades = db.coordinatedTrades := by
  unfold updateNetPosition; simp

@[simp] lemma detectCoordinatedTrade_tradesSeen (env : Env) (db : DBState) (t : Trade) (w : String) :
    (detectCoordinatedTrade env db t w).2.2.tradesSeen = db.tradesSeen := by
  simp only [detectCoordinatedTrade]
  repeat' split
  all_goals first | rfl | simp

@[simp] lemma detectCoordinatedTrade_wallets (env : Env) (db : DBState) (t : Trade) (w : String) :
    (detectCoordinatedTrade env db t w).2.2.wallets = db.wallets := by
  simp only [detectCoordinatedTrade]
  repeat' split
  all_goals first | rfl | simp

@[simp] lemma detectCoordinatedTrade_netPositions (env : Env) (db : DBState) (t : Trade) (w : String) :
    (detectCoordinatedTrade env db t w).2.2.netPositions = db.netPositions := by
  simp only [detectCoordinatedTrade]
  repeat' split
  all_goals first | rfl | simp

@[simp] lemma detectCoordinatedTrade_alerts (env : Env) (db : DBState) (t : Trade) (w : String) :
    (detectCoordinatedTrade env db t w).2.2.alerts = db.alerts := by
  simp only [detectCoordinatedTrade]
  repeat' split
  all_goals first | rfl | simp

@[simp] lemma sendAlert_tradesSeen (env : Env) (db : DBState) (t : Trade) (w : Wallet)
    (mi : MarketInfo) (n : Rat) (age : Int) (score : Rat) (sev : Severity) :
    (sendAlert env db t w mi n age score sev).1.tradesSeen = db.tradesSeen := by
  simp only [sendAlert]
  split
  all_goals rfl

@[simp] lemma sendAlert_wallets (env : Env) (db : DBState) (t : Trade) (w : Wallet)
    (mi : MarketInfo) (n : Rat) (age : Int) (score : Rat) (sev : Severity) :
    (sendAlert env db t w mi n age score sev).1.wallets = db.wallets := by
  simp only [sendAlert]
  split
  all_goals rfl

@[simp] lemma sendAlert_netPositions (env : Env) (db : DBState) (t : Trade) (w : Wallet)
    (mi : MarketInfo) (n : Rat) (age : Int) (score : Rat) (sev : Severity) :
    (sendAlert env db t w mi n age score sev).1.netPositions = db.netPositions := by
  simp only [sendAlert]
  split
  all_goals rfl

@[simp] lemma sendAlert_fundingSources (env : Env) (db : DBState) (t : Trade) (w : Wallet)
    (mi : MarketInfo) (n : Rat) (age : Int) (score : Rat) (sev : Severity) :
    (sendAlert env db t w mi n age score sev).1.fundingSources = db.fundingSources := by
  simp only [sendAlert]
  split
  all_goals rfl

@[simp] lemma sendAlert_clusters (env : Env) (db : DBState) (t : Trade) (w : Wallet)
    (mi : MarketInfo) (n : Rat) (age : Int) (score : Rat) (sev : Severity) :
    (sendAlert env db t w mi n age score sev).1.clusters = db.clusters := by
  simp only [sendAlert]
  split
  all_goals rfl

@[simp] lemma sendAlert_coordinatedTrades (env : Env) (db : DBState) (t : Trade) (w : Wallet)
    (mi : MarketInfo) (n : Rat) (age : Int) (score : Rat) (sev : Severity) :
    (sendAlert env db t w mi n age score sev).1.coordinatedTrades = db.coordinatedTrades := by
  simp only [sendAlert]
  split
  all_goals rfl

@[simp] lemma updateWalletStatsForResolution_wallets (env : Env) (db : DBState)
    (c w : String) : (updateWalletStatsForResolution env db c w).wallets = db.wallets := by
  unfold updateWalletStatsForResolution
  exact foldl_proj_preserved DBState.wallets _ (fun d a => by simp) _ db

@[simp] lemma updateWalletStatsForResolution_fundingSources (env : Env) (db : DBState)
    (c w : String) :
    (updateWalletStatsForResolution env db c w).fundingSources = db.fundingSources := by
  unfold updateWalletStatsForResolution
  exact foldl_proj_preserved DBState.fundingSources _ (fun d a => by simp) _ db

@[simp] lemma updateWalletStatsForResolution_clusters (env : Env) (db : DBState)
    (c w : String) : (updateWalletStatsForResolution env db c w).clusters = db.clusters := by
  unfold updateWalletStatsForResolution
  exact foldl_proj_preserved DBState.clusters _ (fun d a => by simp) _ db

@[simp] lemma updateWalletStatsForResolution_coordinatedTrades (env : Env) (db : DBState)
    (c w : String) :
    (updateWalletStatsForResolution env db c w).coordinatedTrades = db.coordinatedTrades := by
  unfold updateWalletStatsForResolution
  exact foldl_proj_preserved DBState.coordinatedTrades _ (fun d a => by simp) _ db

@[simp] lemma resolveOneMarket_wallets (env : Env) (db : DBState) (c : String) :
    (resolveOneMarket env db c).wallets = db.wallets := by
  simp only [resolveOneMarket]
  repeat' split
  all_goals first | rfl | simp

@[simp] lemma resolveOneMarket_fundingSources (env : Env) (db : DBState) (c : String) :
    (resolveOneMarket env db c).fundingSources = db.fundingSources := by
  simp only [resolveOneMarket]
  repeat' split
  all_goals first | rfl | simp

@[simp] lemma resolveOneMarket_clusters (env : Env) (db : DBState) (c : String) :
    (resolveOneMarket env db c).clusters = db.clusters := by
  simp only [resolveOneMarket]
  repeat' split
  all_goals first | rfl | simp

@[simp] lemma resolveOneMarket_coordinatedTrades (env : Env) (db : DBState) (c : String) :
    (resolveOneMarket env db c).coordinatedTrades = db.coordinatedTrades := by
  simp only [resolveOneMarket]
  repeat' split
  all_goals first | rfl | simp

@[simp] lemma recalculateWinRates_wallets (env : Env) (db : DBState) :
    (recalculateWinRates env db).wallets = db.wallets := by
  unfold recalculateWinRates
  exact foldl_proj_preserved DBState.wallets _ (fun d a => by simp) _ db

@[simp] lemma recalculateWinRates_fundingSources (env : Env) (db : DBState) :
    (recalculateWinRates env db).fundingSources = db.fundingSources := by
  unfold recalculateWinRates
  exact foldl_proj_preserved DBState.fundingSources _ (fun d a => by simp) _ db

@[simp] lemma recalculateWinRates_clusters (env : Env) (db : DBState) :
    (recalculateWinRates env db).clusters = db.clusters := by
  unfold recalculateWinRates
  exact foldl_proj_preserved DBState.clusters _ (fun d a => by simp) _ db

@[simp] lemma recalculateWinRates_coordinatedTrades (env : Env) (db : DBState) :
    (recalculateWinRates env db).coordinatedTrades = db.coordinatedTrades := by
  unfold recalculateWinRates
  exact foldl_proj_preserved DBState.coordinatedTrades _ (fun d a => by simp) _ db


/-- Which early-return filter of `processTrade` fires (after dedup), as a
function of the resolved market info and the trade; `none` means the trade
proceeds to the full pipeline. -/
def earlyExitStatus (env : Env) (mi : MarketInfo) (t : Trade) : Option String :=
  if isNotInsiderCategory mi.category then some "filtered_sports"
  else if mi.endDate > 0 ∧ (t.timestamp ≥ mi.endDate ∨ mi.endDate > env.twoMonthsFromNow) then
    some "filtered_closed"
  else if t.side ≠ "BUY" ∧ t.side ≠ "SELL" then some "invalid_side"
  else if t.outcome = "" then some "missing_outcome"
  else if calculateNotional t < env.cfg.minTradeUSD then some "filtered_size"
  else none

/-- A trade whose fingerprint is already recorded is a no-op. -/
lemma processTrade_seen (env : Env) (db : DBState) (t : Trade)
    (hs : hasTradeSeen db (calculateTradeHash t) = true) :
    processTrade env db t = (db, ⟨"duplicate", false, none, none⟩) := by
  simp only [processTrade]
  rw [if_pos hs]

/-- `getMarketMap` finds the row `upsertMarketMap` just saved. -/
lemma getMarketMap_upsert_self (db : DBState) (m : MarketMap) (k : String)
    (hk : m.conditionID = k) : getMarketMap (upsertMarketMap db m) k = some m := by
  subst hk
  unfold upsertMarketMap getMarketMap
  cases h : List.find? (fun e => e.conditionID = m.conditionID) db.marketMap with
  | none => simp [List.find?]
  | some e =>
    simp only
    generalize db.marketMap = l at h ⊢
    induction l with
    | nil => simp at h
    | cons a l ih =>
      by_cases ha : a.conditionID = m.conditionID
      · simp [List.find?, ha]
      · rw [List.find?_cons_of_neg _ (by simp [ha])] at h
        simp only [List.map_cons]
        rw [if_neg ha, List.find?_cons_of_neg _ (by simp [ha])]
        exact ih h

/-- `resolveMarket` is idempotent: re-resolving against the state it produced
returns the same market info and the same state (a fresh cache hit). -/
lemma resolveMarket_idem (env : Env) (db : DBState) (t : Trade) :
    resolveMarket env (resolveMarket env db t).2 t =
      ((resolveMarket env db t).1, (resolveMarket env db t).2) := by
  unfold resolveMarket
  cases hc : getMarketMap db t.conditionID with
  | some c =>
    by_cases hfresh : env.now - c.updatedTS < 86400
    · simp [hc, hfresh]
    · cases hg : env.gammaMarket t.conditionID with
      | none =>
        by_cases hslug : t.slug = ""
        · simp [hc, hfresh, hg, hslug]
        · simp [hc, hfresh, hg, hslug]
      | some m =>
        simp [hc, hfresh, hg, getMarketMap_upsert_self, sub_self,
          show ((0 : Int) < 86400) from by norm_num]
  | none =>
    cases hg : env.gammaMarket t.conditionID with
    | none =>
      by_cases hslug : t.slug = ""
      · simp [hc, hg, hslug]
      · simp [hc, hg, hslug]
    | some m =>
      simp [hc, hg, getMarketMap_upsert_self, sub_self,
        show ((0 : Int) < 86400) from by norm_num]

/-- `hasTradeSeen` only reads the `trades_seen` table. -/
lemma hasTradeSeen_congr {db db' : DBState} (h : db'.tradesSeen = db.tradesSeen)
    (x : String) : hasTradeSeen db' x = hasTradeSeen db x := by
  unfold hasTradeSeen; rw [h]

/-- Distribute `(·.1.tradesSeen)` over an `if` of result pairs. -/
lemma fst_tradesSeen_ite (c : Prop) [Decidable c] (a b : DBState × ProcOutcome) :
    (ite c a b).1.tradesSeen = ite c a.1.tradesSeen b.1.tradesSeen := by
  split <;> rfl

/-- Distribute `(·.2.2.tradesSeen)` over an `if` of detector results. -/
lemma snd_snd_tradesSeen_ite (c : Prop) [Decidable c] (a b : Bool × String × DBState) :
    (ite c a b).2.2.tradesSeen = ite c a.2.2.tradesSeen b.2.2.tradesSeen := by
  split <;> rfl

/-- The full pipeline prepends exactly the trade row to `trades_seen`. -/
lemma processTradeFull_tradesSeen (env : Env) (db : DBState) (t : Trade)
    (mi : MarketInfo) (n : Rat) (hsh : String) :
    (processTradeFull env db t mi n hsh).1.tradesSeen =
      ({ tradeHash := hsh, transactionHash := t.transactionHash, conditionID := t.conditionID,
         proxyWallet := t.proxyWallet, timestampSec := t.timestamp, notionalUSD := n,
         side := t.side, outcome := t.outcome, price := t.price,
         createdTS := env.now } : TradeSeen) :: db.tradesSeen := by
  simp only [processTradeFull, fst_tradesSeen_ite, snd_snd_tradesSeen_ite,
    sendAlert_tradesSeen, detectCoordinatedTrade_tradesSeen, updateNetPosition_tradesSeen,
    upsertWallet_tradesSeen, insertTrade_tradesSeen, getOrCreateWallet_tradesSeen, ite_self]

/-- An unseen trade that hits an early filter leaves exactly the
market-resolution state behind and emits nothing. -/
lemma processTrade_early (env : Env) (db : DBState) (t : Trade) (s : String)
    (hs : hasTradeSeen db (calculateTradeHash t) = false)
    (he : earlyExitStatus env (resolveMarket env db t).1 t = some s) :
    processTrade env db t = ((resolveMarket env db t).2, ⟨s, false, none, none⟩) := by
  simp only [processTrade]
  rw [if_neg (by simp [hs])]
  simp only [earlyExitStatus] at he
  split_ifs at he with h1 h2 h3 h4 h5
  · rw [if_pos h1]
    injection he with h
    subst h
    rfl
  · rw [if_neg h1, if_pos h2]
    injection he with h
    subst h
    rfl
  · rw [if_neg h1, if_neg h2, if_pos h3]
    injection he with h
    subst h
    rfl
  · rw [if_neg h1, if_neg h2, if_neg h3, if_pos h4]
    injection he with h
    subst h
    rfl
  · rw [if_neg h1, if_neg h2, if_neg h3, if_neg h4, if_pos h5]
    injection he with h
    subst h
    rfl

/-- An unseen trade that passes every early filter reaches the full pipeline. -/
lemma processTrade_full_eq (env : Env) (db : DBState) (t : Trade)
    (hs : hasTradeSeen db (calculateTradeHash t) = false)
    (he : earlyExitStatus env (resolveMarket env db t).1 t = none) :
    processTrade env db t =
      processTradeFull env (resolveMarket env db t).2 t (resolveMarket env db t).1
        (calculateNotional t) (calculateTradeHash t) := by
  simp only [processTrade]
  rw [if_neg (by simp [hs])]
  simp only [earlyExitStatus] at he
  split_ifs at he with h1 h2 h3 h4 h5
  rw [if_neg h1, if_neg h2, if_neg h3, if_neg h4, if_neg h5]

/-- An unseen trade that passes every early filter records its fingerprint. -/
lemma processTrade_records (env : Env) (db : DBState) (t : Trade)
    (hs : hasTradeSeen db (calculateTradeHash t) = false)
    (he : earlyExitStatus env (resolveMarket env db t).1 t = none) :
    hasTradeSeen (processTrade env db t).1 (calculateTradeHash t) = true := by
  rw [processTrade_full_eq env db t hs he]
  unfold hasTradeSeen
  rw [processTradeFull_tradesSeen]
  simp

/-- **C5.** Processing any trade twice in succession is idempotent: the second
call returns exactly the state the first call produced and emits no alert —
either the first call recorded the fingerprint (so the second returns at the
dedup check), or it exited at a filter without writing, and the second call
retraces the same filter path. -/
theorem processTrade_idempotent (env : Env) (db : DBState) (t : Trade) :
    (processTrade env (processTrade env db t).1 t).1 = (processTrade env db t).1 ∧
    (processTrade env (processTrade env db t).1 t).2.emitted = false := by
  by_cases hs : hasTradeSeen db (calculateTradeHash t) = true
  · rw [processTrade_seen env db t hs]
    rw [processTrade_seen env db t hs]
    exact ⟨rfl, rfl⟩
  · have hs' : hasTradeSeen db (calculateTradeHash t) = false := by
      simpa using hs
    cases he : earlyExitStatus env (resolveMarket env db t).1 t with
    | some s =>
      rw [processTrade_early env db t s hs' he]
      have hs2 : hasTradeSeen (resolveMarket env db t).2 (calculateTradeHash t) = false := by
        rw [hasTradeSeen_congr (resolveMarket_tradesSeen env db t)]
        exact hs'
      have he2 : earlyExitStatus env (resolveMarket env (resolveMarket env db t).2 t).1 t
          = some s := by
        rw [resolveMarket_idem]
        exact he
      rw [processTrade_early env (resolveMarket env db t).2 t s hs2 he2]
      constructor
      · show (resolveMarket env (resolveMarket env db t).2 t).2 = (resolveMarket env db t).2
        rw [resolveMarket_idem]
      · rfl
    | none =>
      have hrec := processTrade_records env db t hs' he
      rw [processTrade_seen env (processTrade env db t).1 t hrec]
      exact ⟨rfl, rfl⟩


@[simp] lemma insertCoordinatedTrade_fundingSources (db : DBState) (c : CoordinatedTrade) :
    (insertCoordinatedTrade db c).fundingSources = db.fundingSources := rfl

@[simp] lemma insertCoordinatedTrade_clusters (db : DBState) (c : CoordinatedTrade) :
    (insertCoordinatedTrade db c).clusters = db.clusters := rfl

@[simp] lemma detectCoordinatedTrade_fundingSources (env : Env) (db : DBState) (t : Trade)
    (w : String) : (detectCoordinatedTrade env db t w).2.2.fundingSources = db.fundingSources := by
  simp only [detectCoordinatedTrade]
  repeat' split
  all_goals first | rfl | simp

@[simp] lemma detectCoordinatedTrade_clusters (env : Env) (db : DBState) (t : Trade)
    (w : String) : (detectCoordinatedTrade env db t w).2.2.clusters = db.clusters := by
  simp only [detectCoordinatedTrade]
  repeat' split
  all_goals first | rfl | simp

/-- With no funding sources recorded, the coordination detector is inert. -/
lemma detectCoordinatedTrade_of_empty (env : Env) {db : DBState} (t : Trade) (w : String)
    (h : db.fundingSources = []) :
    detectCoordinatedTrade env db t w = (false, "", db) := by
  unfold detectCoordinatedTrade getWalletFundingSource
  rw [h]
  rfl

/-- With no funding sources recorded, the cluster multiplier is 1. -/
lemma getClusterMultiplier_of_empty {db : DBState} (w : String)
    (h : db.fundingSources = []) : getClusterMultiplier db w = 1 := by
  unfold getClusterMultiplier getWalletFundingSource
  rw [h]
  rfl

/-- Distribute a `DBState` projection over an `if` of result pairs. -/
lemma fst_proj_ite {β : Type} (g : DBState → β) (c : Prop) [Decidable c]
    (a b : DBState × ProcOutcome) : g (ite c a b).1 = ite c (g a.1) (g b.1) := by
  split <;> rfl

/-- Distribute a `DBState` projection over an `if` of detector results. -/
lemma snd_snd_proj_ite {β : Type} (g : DBState → β) (c : Prop) [Decidable c]
    (a b : Bool × String × DBState) : g (ite c a b).2.2 = ite c (g a.2.2) (g b.2.2) := by
  split <;> rfl

lemma processTradeFull_fundingSources (env : Env) (db : DBState) (t : Trade)
    (mi : MarketInfo) (n : Rat) (hsh : String) :
    (processTradeFull env db t mi n hsh).1.fundingSources = db.fundingSources := by
  simp only [processTradeFull, fst_proj_ite DBState.fundingSources,
    snd_snd_proj_ite DBState.fundingSources, sendAlert_fundingSources,
    detectCoordinatedTrade_fundingSources, updateNetPosition_fundingSources,
    upsertWallet_fundingSources, insertTrade_fundingSources,
    getOrCreateWallet_fundingSources, ite_self]

lemma processTradeFull_clusters (env : Env) (db : DBState) (t : Trade)
    (mi : MarketInfo) (n : Rat) (hsh : String) :
    (processTradeFull env db t mi n hsh).1.clusters = db.clusters := by
  simp only [processTradeFull, fst_proj_ite DBState.clusters,
    snd_snd_proj_ite DBState.clusters, sendAlert_clusters,
    detectCoordinatedTrade_clusters, updateNetPosition_clusters,
    upsertWallet_clusters, insertTrade_clusters, getOrCreateWallet_clusters, ite_self]

lemma processTradeFull_coordinatedTrades_of_empty (env : Env) (db : DBState) (t : Trade)
    (mi : MarketInfo) (n : Rat) (hsh : String) (h : db.fundingSources = []) :
    (processTradeFull env db t mi n hsh).1.coordinatedTrades = db.coordinatedTrades := by
  simp only [processTradeFull, fst_proj_ite DBState.coordinatedTrades,
    snd_snd_proj_ite DBState.coordinatedTrades, sendAlert_coordinatedTrades,
    updateNetPosition_coordinatedTrades, upsertWallet_coordinatedTrades,
    insertTrade_coordinatedTrades, getOrCreateWallet_coordinatedTrades, ite_self]
  rw [detectCoordinatedTrade_of_empty env t t.proxyWallet (by simp [h])]
  simp

lemma processTrade_fundingSources (env : Env) (db : DBState) (t : Trade) :
    (processTrade env db t).1.fundingSources = db.fundingSources := by
  simp only [processTrade]
  repeat' split
  all_goals simp [processTradeFull_fundingSources]

lemma processTrade_clusters (env : Env) (db : DBState) (t : Trade) :
    (processTrade env db t).1.clusters = db.clusters := by
  simp only [processTrade]
  repeat' split
  all_goals simp [processTradeFull_clusters]

lemma processTrade_coordinatedTrades_of_empty (env : Env) {db : DBState} (t : Trade)
    (h : db.fundingSources = []) :
    (processTrade env db t).1.coordinatedTrades = db.coordinatedTrades := by
  have hfs : (resolveMarket env db t).2.fundingSources = [] := by simp [h]
  simp only [processTrade]
  repeat' split
  all_goals try simp
  rw [processTradeFull_coordinatedTrades_of_empty _ _ _ _ _ _ hfs]
  simp

/-- **C9.** In every reachable state the funding-source, cluster and
coordinated-trade machinery is inert: `GetFromAddress` always returns the
empty string, so no funding-source, cluster or coordinated-trade row is ever
created, the cluster multiplier is 1 for every wallet, and the coordination
detector never fires. -/
theorem cluster_machinery_inert :
    (∀ a : ActivityEvent, a.getFromAddress = "") ∧
    ∀ db : DBState, Reachable db →
      db.fundingSources = [] ∧ db.clusters = [] ∧ db.coordinatedTrades = [] ∧
      (∀ w, getClusterMultiplier db w = 1) ∧
      (∀ (env : Env) (t : Trade) (w : String), (detectCoordinatedTrade env db t w).1 = false) := by
  refine ⟨fun a => rfl, ?_⟩
  intro db hdb
  have key : db.fundingSources = [] ∧ db.clusters = [] ∧ db.coordinatedTrades = [] := by
    induction hdb with
    | init => exact ⟨rfl, rfl, rfl⟩
    | trade env t h ih =>
      exact ⟨by rw [processTrade_fundingSources, ih.1],
             by rw [processTrade_clusters, ih.2.1],
             by rw [processTrade_coordinatedTrades_of_empty env t ih.1, ih.2.2]⟩
    | winRates env h ih =>
      exact ⟨by rw [recalculateWinRates_fundingSources, ih.1],
             by rw [recalculateWinRates_clusters, ih.2.1],
             by rw [recalculateWinRates_coordinatedTrades, ih.2.2]⟩
    | checkpoint k v h ih =>
      exact ⟨by rw [setState_fundingSources, ih.1],
             by rw [setState_clusters, ih.2.1],
             by rw [setState_coordinatedTrades, ih.2.2]⟩
  refine ⟨key.1, key.2.1, key.2.2, ?_, ?_⟩
  · intro w
    exact getClusterMultiplier_of_empty w key.1
  · intro env t w
    rw [detectCoordinatedTrade_of_empty env t w key.1]

/-- Witness for `cluster_machinery_inert`: applied to the state after one
processed trade, the cluster multiplier of the trading wallet is 1. -/
theorem cluster_machinery_inert_witness :
    getClusterMultiplier ((processTrade testEnv initialState (buyTrade "h1" 1000 1500)).1) "0xw"
      = 1 :=
  (cluster_machinery_inert.2 _
    (Reachable.trade testEnv (buyTrade "h1" 1000 1500) Reachable.init)).2.2.2.1 "0xw"


/-- Every wallet row the program ever writes has funding-received either 0 or
equal to first-seen. -/
def walletFundingConsistent (w : Wallet) : Prop :=
  w.fundingReceivedTS = 0 ∨ w.fundingReceivedTS = w.firstSeenTS

/-- A funding-consistent wallet has funding age 0 (both units). -/
lemma fundingAge_zero_of_consistent (w : Wallet) (h : walletFundingConsistent w) :
    fundingAgeHoursOf w = 0 ∧ fundingAgeMinutesOf w = 0 := by
  cases h with
  | inl h0 => simp [fundingAgeHoursOf, fundingAgeMinutesOf, h0]
  | inr heq => simp [fundingAgeHoursOf, fundingAgeMinutesOf, heq]

/-- Funding age 0 defeats the flash-funding multiplier. -/
lemma flashFundingMultiplierOf_zero : flashFundingMultiplierOf 0 = 1 := by
  norm_num [flashFundingMultiplierOf]

/-- Funding age 0 defeats the funding-age multiplier. -/
lemma fundingAgeMultiplierOf_zero : fundingAgeMultiplierOf 0 = 1 := by
  norm_num [fundingAgeMultiplierOf]

/-- `upsertWallet` keeps the wallet table funding-consistent: the insert
branch adds a consistent row, the update branch never touches first-seen or
funding-received. -/
lemma upsertWallet_consistent {db : DBState} {w : Wallet}
    (hdb : ∀ x ∈ db.wallets, walletFundingConsistent x) (hw : walletFundingConsistent w) :
    ∀ x ∈ (upsertWallet db w).wallets, walletFundingConsistent x := by
  unfold upsertWallet
  cases getWallet db w.walletAddress with
  | none =>
    intro x hx
    rcases List.mem_cons.mp hx with rfl | hx
    · exact hw
    · exact hdb x hx
  | some e =>
    intro x hx
    simp only [List.mem_map] at hx
    obtain ⟨y, hy, rfl⟩ := hx
    by_cases hy' : y.walletAddress = w.walletAddress
    · simpa [hy', walletFundingConsistent] using hdb y hy
    · simpa [hy'] using hdb y hy

/-- The wallet `getOrCreateWallet` returns. -/
lemma getOrCreateWallet_fst (env : Env) (db : DBState) (a : String) (ts : Int) :
    (getOrCreateWallet env db a ts).1 =
      match getWallet db a with
      | some w => w
      | none =>
        { walletAddress := a,
          firstSeenTS := match env.firstActivity a with | none => ts | some e => e.timestamp,
          fundingReceivedTS := match env.firstActivity a with | none => 0 | some e => e.timestamp,
          totalTrades := 0, totalVolumeUSD := 0, lastActivityTS := ts, updatedTS := env.now } := by
  unfold getOrCreateWallet
  cases getWallet db a <;> rfl

/-- `getOrCreateWallet` returns a funding-consistent wallet and keeps the
table funding-consistent. -/
lemma getOrCreateWallet_consistent (env : Env) (db : DBState) (a : String) (ts : Int)
    (hdb : ∀ x ∈ db.wallets, walletFundingConsistent x) :
    walletFundingConsistent (getOrCreateWallet env db a ts).1 ∧
    ∀ x ∈ (getOrCreateWallet env db a ts).2.wallets, walletFundingConsistent x := by
  constructor
  · rw [getOrCreateWallet_fst]
    cases hg : getWallet db a with
    | some w => exact hdb w (List.mem_of_find?_eq_some hg)
    | none =>
      cases env.firstActivity a with
      | none => exact Or.inl rfl
      | some e => exact Or.inr rfl
  · rw [getOrCreateWallet_no_funding_branch]
    cases hg : getWallet db a with
    | some w => exact hdb
    | none =>
      apply upsertWallet_consistent hdb
      cases env.firstActivity a with
      | none => exact Or.inl rfl
      | some e => exact Or.inr rfl

/-- The full pipeline keeps the wallet table funding-consistent. -/
lemma processTradeFull_wallets_consistent (env : Env) (db : DBState) (t : Trade)
    (mi : MarketInfo) (n : Rat) (hsh : String)
    (hdb : ∀ x ∈ db.wallets, walletFundingConsistent x) :
    ∀ x ∈ (processTradeFull env db t mi n hsh).1.wallets, walletFundingConsistent x := by
  simp only [processTradeFull, fst_proj_ite DBState.wallets, snd_snd_proj_ite DBState.wallets,
    sendAlert_wallets, detectCoordinatedTrade_wallets, updateNetPosition_wallets, ite_self]
  apply upsertWallet_consistent
  · simp only [insertTrade_wallets]
    exact (getOrCreateWallet_consistent env db t.proxyWallet t.timestamp hdb).2
  · have := (getOrCreateWallet_consistent env db t.proxyWallet t.timestamp hdb).1
    simpa [walletFundingConsistent] using this

/-- One processed trade keeps the wallet table funding-consistent. -/
lemma processTrade_wallets_consistent (env : Env) (db : DBState) (t : Trade)
    (hdb : ∀ x ∈ db.wallets, walletFundingConsistent x) :
    ∀ x ∈ (processTrade env db t).1.wallets, walletFundingConsistent x := by
  simp only [processTrade]
  repeat' split
  all_goals
    first
      | exact hdb
      | (simp only [resolveMarket_wallets]; exact hdb)
      | (apply processTradeFull_wallets_consistent
         simp only [resolveMarket_wallets]
         exact hdb)

/-- Every reachable wallet table is funding-consistent. -/
lemma reachable_wallets_consistent {db : DBState} (h : Reachable db) :
    ∀ x ∈ db.wallets, walletFundingConsistent x := by
  induction h with
  | init => intro x hx; simp [initialState] at hx
  | trade env t h ih => exact processTrade_wallets_consistent _ _ _ ih
  | winRates env h ih => simp only [recalculateWinRates_wallets]; exact ih
  | checkpoint k v h ih => simp only [setState_wallets]; exact ih

/-- **C10.** A wallet created by `getOrCreateWallet` has funding-received
equal to first-seen (upstream success) or 0 (failure), so its computed
funding age is 0 and both the flash-funding and the funding-age multipliers
are 1; and this holds of every wallet row in every reachable state. -/
theorem created_wallet_funding_multipliers_one :
    (∀ (env : Env) (db : DBState) (a : String) (ts : Int), getWallet db a = none →
      fundingAgeHoursOf (getOrCreateWallet env db a ts).1 = 0 ∧
      fundingAgeMinutesOf (getOrCreateWallet env db a ts).1 = 0 ∧
      flashFundingMultiplierOf (fundingAgeMinutesOf (getOrCreateWallet env db a ts).1) = 1 ∧
      fundingAgeMultiplierOf (fundingAgeHoursOf (getOrCreateWallet env db a ts).1) = 1) ∧
    (∀ db : DBState, Reachable db → ∀ w ∈ db.wallets,
      fundingAgeHoursOf w = 0 ∧ fundingAgeMinutesOf w = 0 ∧
      flashFundingMultiplierOf (fundingAgeMinutesOf w) = 1 ∧
      fundingAgeMultiplierOf (fundingAgeHoursOf w) = 1) := by
  constructor
  · intro env db a ts hnone
    have hc : walletFundingConsistent (getOrCreateWallet env db a ts).1 := by
      rw [getOrCreateWallet_fst, hnone]
      cases env.firstActivity a with
      | none => exact Or.inl rfl
      | some e => exact Or.inr rfl
    obtain ⟨hh, hm⟩ := fundingAge_zero_of_consistent _ hc
    exact ⟨hh, hm, by rw [hm, flashFundingMultiplierOf_zero],
      by rw [hh, fundingAgeMultiplierOf_zero]⟩
  · intro db hdb w hw
    have hc := reachable_wallets_consistent hdb w hw
    obtain ⟨hh, hm⟩ := fundingAge_zero_of_consistent _ hc
    exact ⟨hh, hm, by rw [hm, flashFundingMultiplierOf_zero],
      by rw [hh, fundingAgeMultiplierOf_zero]⟩

/-- The wallet row stored after one processed trade of the C10 witness. -/
def c10wallet : Wallet :=
  { walletAddress := "0xw", firstSeenTS := 1000, fundingReceivedTS := 0, totalTrades := 1,
    totalVolumeUSD := 1500, lastActivityTS := 1000, updatedTS := 1000000 }

/-- Witness for `created_wallet_funding_multipliers_one`: a concrete creation
from the empty state, and the concrete wallet row of a reachable state. -/
theorem created_wallet_funding_multipliers_one_witness :
    (getWallet initialState "0xw" = none ∧
      flashFundingMultiplierOf
        (fundingAgeMinutesOf (getOrCreateWallet testEnv initialState "0xw" 1000).1) = 1) ∧
    (Reachable (processTrade testEnv initialState (buyTrade "h1" 1000 1500)).1 ∧
      c10wallet ∈
        (processTrade testEnv initialState (buyTrade "h1" 1000 1500)).1.wallets ∧
      fundingAgeMultiplierOf (fundingAgeHoursOf
        c10wallet) = 1) := by
  have h1 : (processTrade testEnv initialState (buyTrade "h1" 1000 1500)).1 =
      { appState := [],
        tradesSeen := [
          { tradeHash := "h1", transactionHash := "h1", conditionID := "0xc",
            proxyWallet := "0xw", timestampSec := 1000, notionalUSD := 1500, side := "BUY",
            outcome := "YES", price := 1/2, createdTS := 1000000 }],
        wallets := [
          { walletAddress := "0xw", firstSeenTS := 1000, fundingReceivedTS := 0,
            totalTrades := 1, totalVolumeUSD := 1500, lastActivityTS := 1000,
            updatedTS := 1000000 }],
        alerts := [],
        netPositions := [
          { walletAddress := "0xw", conditionID := "0xc", windowStartTS := 0,
            netNotionalUSD := 1500, tradeCount := 1, updatedTS := 1000000 }],
        marketMap := [], marketResolutions := [], walletStats := [], fundingSources := [],
        clusters := [], coordinatedTrades := [] } := by
    simp +decide [processTrade, processTradeFull, resolveMarket, getOrCreateWallet, getWallet,
      upsertWallet, insertTrade, updateNetPosition, upsertNetPosition, getNetPosition,
      getWalletStats, checkTradeVelocity, getRecentTradesForWallet,
      checkNetPositionConcentration, detectCoordinatedTrade, getWalletFundingSource,
      getClusterMultiplier, calculateNotional, calculateTradeHash, hasTradeSeen,
      isNotInsiderCategory, calculateSuspicionScore, adjustScore, determineSeverity, sendAlert,
      getLastAlertForWallet, insertAlert, fundingAgeHoursOf, fundingAgeMinutesOf,
      flashFundingMultiplierOf, velocityMultiplierOf, liquidityMultiplierOf,
      priceConfidenceMultiplierOf, getMarketMap, initialState, buyTrade, testEnv, testCfg,
      Int.tdiv]
    norm_num
  have hr : Reachable (processTrade testEnv initialState (buyTrade "h1" 1000 1500)).1 :=
    Reachable.trade testEnv (buyTrade "h1" 1000 1500) Reachable.init
  have hmem : c10wallet ∈
      (processTrade testEnv initialState (buyTrade "h1" 1000 1500)).1.wallets := by
    rw [h1]
    simp [c10wallet]
  refine ⟨⟨rfl, (created_wallet_funding_multipliers_one.1 testEnv initialState "0xw" 1000
    rfl).2.2.1⟩, hr, hmem, ?_⟩
  exact ((created_wallet_funding_multipliers_one.2 _ hr) _ hmem).2.2.2

end InsiderWatch

namespace InsiderWatch

/-- `determineSeverity` returns ALERT exactly when the score reaches the alert
threshold. -/
lemma determineSeverity_alert_iff (cfg : Config) (q : Rat) :
    determineSeverity cfg q = .alert ↔ cfg.suspicionScoreAlert ≤ q := by
  unfold determineSeverity
  split_ifs with h1 h2 <;> simp_all

/-- `determineSeverity` returns WARN exactly when the score is in
[warn, alert). -/
lemma determineSeverity_warn_iff (cfg : Config) (q : Rat) :
    determineSeverity cfg q = .warn ↔
      cfg.suspicionScoreWarn ≤ q ∧ q < cfg.suspicionScoreAlert := by
  unfold determineSeverity
  split_ifs with h1 h2
  · simp only [ge_iff_le] at h1
    constructor
    · intro h; cases h
    · rintro ⟨_, hlt⟩; exact absurd h1 (not_le.mpr hlt)
  · simp only [ge_iff_le, not_le] at h1 h2
    simp [h1, h2]
  · simp only [ge_iff_le, not_le] at h1 h2
    constructor
    · intro h; cases h
    · rintro ⟨hle, _⟩; exact absurd h2 (not_lt.mpr hle)

/-- `getWallet` only reads the wallet table. -/
lemma getWallet_congr {db db' : DBState} (h : db'.wallets = db.wallets) (a : String) :
    getWallet db' a = getWallet db a := by
  unfold getWallet; rw [h]

/-- `getNetPosition` only reads the net-position table. -/
lemma getNetPosition_congr {db db' : DBState} (h : db'.netPositions = db.netPositions)
    (w c : String) (ws : Int) : getNetPosition db' w c ws = getNetPosition db w c ws := by
  unfold getNetPosition; rw [h]

/-- `upsertWallet` leaves a row with the upserted address in the table. -/
lemma upsertWallet_exists (db : DBState) (w : Wallet) :
    ∃ x ∈ (upsertWallet db w).wallets, x.walletAddress = w.walletAddress := by
  unfold upsertWallet
  cases hg : getWallet db w.walletAddress with
  | none => exact ⟨w, List.mem_cons_self _ _, rfl⟩
  | some e =>
    unfold getWallet at hg
    have hmem := List.mem_of_find?_eq_some hg
    have hp : e.walletAddress = w.walletAddress := by simpa using List.find?_some hg
    exact ⟨_, List.mem_map_of_mem _ hmem, by simp [hp]⟩

/-- After `upsertWallet`, a lookup by the upserted address succeeds. -/
lemma upsertWallet_isSome (db : DBState) (w : Wallet) :
    (getWallet (upsertWallet db w) w.walletAddress).isSome = true := by
  unfold getWallet
  rw [List.find?_isSome]
  obtain ⟨x, hx, ha⟩ := upsertWallet_exists db w
  exact ⟨x, hx, by simp [ha]⟩

/-- The wallet `getOrCreateWallet` returns carries the requested address. -/
lemma getOrCreateWallet_address (env : Env) (db : DBState) (a : String) (ts : Int) :
    (getOrCreateWallet env db a ts).1.walletAddress = a := by
  rw [getOrCreateWallet_fst]
  cases hg : getWallet db a with
  | some w =>
    unfold getWallet at hg
    simpa using List.find?_some hg
  | none => rfl

/-- `upsertNetPosition` leaves a row with the upserted key in the table. -/
lemma upsertNetPosition_exists (db : DBState) (p : WalletMarketNet) :
    ∃ x ∈ (upsertNetPosition db p).netPositions,
      x.walletAddress = p.walletAddress ∧ x.conditionID = p.conditionID ∧
      x.windowStartTS = p.windowStartTS := by
  unfold upsertNetPosition
  cases hg : getNetPosition db p.walletAddress p.conditionID p.windowStartTS with
  | none => exact ⟨p, List.mem_cons_self _ _, rfl, rfl, rfl⟩
  | some e =>
    unfold getNetPosition at hg
    have hmem := List.mem_of_find?_eq_some hg
    have hp := List.find?_some hg
    simp only [decide_eq_true_eq] at hp
    exact ⟨_, List.mem_map_of_mem _ hmem, by simp [hp.1, hp.2.1, hp.2.2]⟩

/-- After `upsertNetPosition`, a lookup by the upserted key succeeds. -/
lemma upsertNetPosition_isSome (db : DBState) (p : WalletMarketNet) :
    (getNetPosition (upsertNetPosition db p) p.walletAddress p.conditionID
      p.windowStartTS).isSome = true := by
  unfold getNetPosition
  rw [List.find?_isSome]
  obtain ⟨x, hx, h1, h2, h3⟩ := upsertNetPosition_exists db p
  exact ⟨x, hx, by simp [h1, h2, h3]⟩

/-- After `updateNetPosition`, the trade's window key is present. -/
lemma updateNetPosition_exists (env : Env) (db : DBState) (t : Trade) (n : Rat) :
    (getNetPosition (updateNetPosition env db t n) t.proxyWallet t.conditionID
      ((t.timestamp.tdiv (env.cfg.netPositionWindowHrs * 3600)) *
        (env.cfg.netPositionWindowHrs * 3600))).isSome = true := by
  simp only [updateNetPosition]
  cases getNetPosition db t.proxyWallet t.conditionID
      ((t.timestamp.tdiv (env.cfg.netPositionWindowHrs * 3600)) *
        (env.cfg.netPositionWindowHrs * 3600)) with
  | none => exact upsertNetPosition_isSome db _
  | some e => exact upsertNetPosition_isSome db _

/-- A wallet lookup succeeds exactly when a row with the address exists. -/
lemma getWallet_isSome_iff (db : DBState) (a : String) :
    (getWallet db a).isSome = true ↔ ∃ x ∈ db.wallets, x.walletAddress = a := by
  unfold getWallet
  rw [List.find?_isSome]
  constructor <;> rintro ⟨x, hx, h⟩ <;> exact ⟨x, hx, by simpa using h⟩

/-- A net-position lookup succeeds exactly when a row with the key exists. -/
lemma getNetPosition_isSome_iff (db : DBState) (w c : String) (ws : Int) :
    (getNetPosition db w c ws).isSome = true ↔
      ∃ x ∈ db.netPositions, x.walletAddress = w ∧ x.conditionID = c ∧
        x.windowStartTS = ws := by
  unfold getNetPosition
  rw [List.find?_isSome]
  constructor <;> rintro ⟨x, hx, h⟩ <;> exact ⟨x, hx, by simpa using h⟩

/-- `upsertWallet` leaves a row with any name of the upserted address. -/
lemma upsertWallet_exists_addr (dbi : DBState) (w0 : Wallet) (a : String)
    (ha : w0.walletAddress = a) :
    ∃ x ∈ (upsertWallet dbi w0).wallets, x.walletAddress = a := by
  obtain ⟨x, hx, h⟩ := upsertWallet_exists dbi w0
  exact ⟨x, hx, by rw [h, ha]⟩

/-- `updateNetPosition` leaves a row with the trade's window key. -/
lemma updateNetPosition_mem (env : Env) (dbw : DBState) (t : Trade) (n : Rat) :
    ∃ x ∈ (updateNetPosition env dbw t n).netPositions,
      x.walletAddress = t.proxyWallet ∧ x.conditionID = t.conditionID ∧
      x.windowStartTS = (t.timestamp.tdiv (env.cfg.netPositionWindowHrs * 3600)) *
        (env.cfg.netPositionWindowHrs * 3600) := by
  have h := updateNetPosition_exists env dbw t n
  rw [getNetPosition_isSome_iff] at h
  exact h

/-- The wallet row is present after the full pipeline. -/
lemma processTradeFull_wallet_exists (env : Env) (db : DBState) (t : Trade)
    (mi : MarketInfo) (n : Rat) (hsh : String) :
    (getWallet (processTradeFull env db t mi n hsh).1 t.proxyWallet).isSome = true := by
  rw [getWallet_isSome_iff]
  simp only [processTradeFull, fst_proj_ite DBState.wallets, snd_snd_proj_ite DBState.wallets,
    sendAlert_wallets, detectCoordinatedTrade_wallets, updateNetPosition_wallets, ite_self]
  apply upsertWallet_exists_addr
  simp [getOrCreateWallet_address]

/-- The net-position row of the trade's window key is present after the full
pipeline. -/
lemma processTradeFull_netPosition_exists (env : Env) (db : DBState) (t : Trade)
    (mi : MarketInfo) (n : Rat) (hsh : String) :
    (getNetPosition (processTradeFull env db t mi n hsh).1 t.proxyWallet t.conditionID
      ((t.timestamp.tdiv (env.cfg.netPositionWindowHrs * 3600)) *
        (env.cfg.netPositionWindowHrs * 3600))).isSome = true := by
  rw [getNetPosition_isSome_iff]
  simp only [processTradeFull, fst_proj_ite DBState.netPositions,
    snd_snd_proj_ite DBState.netPositions, sendAlert_netPositions,
    detectCoordinatedTrade_netPositions, ite_self]
  exact updateNetPosition_mem env _ t n

end InsiderWatch

namespace InsiderWatch

/-- Shape of the outcome component of the age-gated tail: `success` status
always; the stale-wallet branch yields no score, severity or emission; the
gated branch yields a score whose severity labels the outcome, with emission
suppressed on INFO. -/
lemma outcome_shape (c : Prop) [Decidable c] (cfg : Config) (q : Rat) (e : Bool)
    (db1 db2 db3 : DBState) :
    (if c then
        (if determineSeverity cfg q ≠ Severity.info then
          (db1, (⟨"success", e, some q, some (determineSeverity cfg q)⟩ : ProcOutcome))
        else (db2, (⟨"success", false, some q, some (determineSeverity cfg q)⟩ : ProcOutcome)))
      else (db3, (⟨"success", false, none, none⟩ : ProcOutcome))).2.status = "success" ∧
    (¬ c →
      (if c then
          (if determineSeverity cfg q ≠ Severity.info then
            (db1, (⟨"success", e, some q, some (determineSeverity cfg q)⟩ : ProcOutcome))
          else (db2, (⟨"success", false, some q, some (determineSeverity cfg q)⟩ : ProcOutcome)))
        else (db3, (⟨"success", false, none, none⟩ : ProcOutcome))).2 =
        ⟨"success", false, none, none⟩) ∧
    (c → ∃ q0,
      (if c then
          (if determineSeverity cfg q ≠ Severity.info then
            (db1, (⟨"success", e, some q, some (determineSeverity cfg q)⟩ : ProcOutcome))
          else (db2, (⟨"success", false, some q, some (determineSeverity cfg q)⟩ : ProcOutcome)))
        else (db3, (⟨"success", false, none, none⟩ : ProcOutcome))).2.finalScore = some q0 ∧
      (if c then
          (if determineSeverity cfg q ≠ Severity.info then
            (db1, (⟨"success", e, some q, some (determineSeverity cfg q)⟩ : ProcOutcome))
          else (db2, (⟨"success", false, some q, some (determineSeverity cfg q)⟩ : ProcOutcome)))
        else (db3, (⟨"success", false, none, none⟩ : ProcOutcome))).2.severity =
        some (determineSeverity cfg q0) ∧
      (determineSeverity cfg q0 = Severity.info →
        (if c then
            (if determineSeverity cfg q ≠ Severity.info then
              (db1, (⟨"success", e, some q, some (determineSeverity cfg q)⟩ : ProcOutcome))
            else (db2, (⟨"success", false, some q, some (determineSeverity cfg q)⟩ : ProcOutcome)))
          else (db3, (⟨"success", false, none, none⟩ : ProcOutcome))).2.emitted = false)) := by
  by_cases hc : c
  · rw [if_pos hc]
    by_cases hv : determineSeverity cfg q ≠ Severity.info
    · rw [if_pos hv]
      exact ⟨rfl, fun h => absurd hc h, fun _ => ⟨q, rfl, rfl, fun hinfo => absurd hinfo hv⟩⟩
    · rw [if_neg hv]
      exact ⟨rfl, fun h => absurd hc h, fun _ => ⟨q, rfl, rfl, fun _ => rfl⟩⟩
  · rw [if_neg hc]
    exact ⟨rfl, fun _ => rfl, fun h => absurd h hc⟩

/-- Outcome of the full pipeline: status `success`; past the age gate no
score, severity or emission; inside the gate a score labelled by its
severity, with emission suppressed on INFO. -/
lemma processTradeFull_outcome (env : Env) (db : DBState) (t : Trade)
    (mi : MarketInfo) (n : Rat) (hsh : String) :
    (processTradeFull env db t mi n hsh).2.status = "success" ∧
    (¬ (t.timestamp - (getOrCreateWallet env db t.proxyWallet t.timestamp).1.firstSeenTS).tdiv
        86400 ≤ env.cfg.newWalletDaysMax →
      (processTradeFull env db t mi n hsh).2 = ⟨"success", false, none, none⟩) ∧
    ((t.timestamp - (getOrCreateWallet env db t.proxyWallet t.timestamp).1.firstSeenTS).tdiv
        86400 ≤ env.cfg.newWalletDaysMax →
      ∃ q, (processTradeFull env db t mi n hsh).2.finalScore = some q ∧
        (processTradeFull env db t mi n hsh).2.severity = some (determineSeverity env.cfg q) ∧
        (determineSeverity env.cfg q = Severity.info →
          (processTradeFull env db t mi n hsh).2.emitted = false)) := by
  simp only [processTradeFull]
  exact outcome_shape _ _ _ _ _ _ _

end InsiderWatch

namespace InsiderWatch

/-- **C6.** For an unseen trade that passes every early filter (with the
configured thresholds ordered warn ≤ alert): the outcome status is `success`
and the trade row, the wallet row and the net-position row of the trade's
window are all present afterwards; if the wallet's age in days exceeds
`NEW_WALLET_DAYS_MAX` no alert is emitted and no severity is produced; if the
age is within the gate, the outcome carries a final score `q` whose severity
is `determineSeverity`, emission is suppressed when `q` is below the warn
threshold (severity INFO), and the severity is ALERT iff `q` reaches the
alert threshold and WARN iff `warn ≤ q < alert`. -/
theorem age_gate_and_severity (env : Env) (db : DBState) (t : Trade)
    (hs : hasTradeSeen db (calculateTradeHash t) = false)
    (he : earlyExitStatus env (resolveMarket env db t).1 t = none)
    (hth : env.cfg.suspicionScoreWarn ≤ env.cfg.suspicionScoreAlert) :
    (processTrade env db t).2.status = "success" ∧
    hasTradeSeen (processTrade env db t).1 (calculateTradeHash t) = true ∧
    (getWallet (processTrade env db t).1 t.proxyWallet).isSome = true ∧
    (getNetPosition (processTrade env db t).1 t.proxyWallet t.conditionID
      ((t.timestamp.tdiv (env.cfg.netPositionWindowHrs * 3600)) *
        (env.cfg.netPositionWindowHrs * 3600))).isSome = true ∧
    ((t.timestamp - (getOrCreateWallet env (resolveMarket env db t).2 t.proxyWallet
        t.timestamp).1.firstSeenTS).tdiv 86400 > env.cfg.newWalletDaysMax →
      (processTrade env db t).2.emitted = false ∧
      (processTrade env db t).2.severity = none) ∧
    ((t.timestamp - (getOrCreateWallet env (resolveMarket env db t).2 t.proxyWallet
        t.timestamp).1.firstSeenTS).tdiv 86400 ≤ env.cfg.newWalletDaysMax →
      ∃ q, (processTrade env db t).2.finalScore = some q ∧
        (processTrade env db t).2.severity = some (determineSeverity env.cfg q) ∧
        (q < env.cfg.suspicionScoreWarn → (processTrade env db t).2.emitted = false) ∧
        (determineSeverity env.cfg q = Severity.alert ↔ env.cfg.suspicionScoreAlert ≤ q) ∧
        (determineSeverity env.cfg q = Severity.warn ↔
          env.cfg.suspicionScoreWarn ≤ q ∧ q < env.cfg.suspicionScoreAlert)) := by
  rw [processTrade_full_eq env db t hs he]
  obtain ⟨h1, h2, h3⟩ := processTradeFull_outcome env (resolveMarket env db t).2 t
    (resolveMarket env db t).1 (calculateNotional t) (calculateTradeHash t)
  refine ⟨h1, ?_, processTradeFull_wallet_exists _ _ _ _ _ _,
    processTradeFull_netPosition_exists _ _ _ _ _ _, ?_, ?_⟩
  · unfold hasTradeSeen
    rw [processTradeFull_tradesSeen]
    simp
  · intro hgt
    rw [h2 (not_le.mpr hgt)]
    exact ⟨rfl, rfl⟩
  · intro hle
    obtain ⟨q, hq1, hq2, hq3⟩ := h3 hle
    refine ⟨q, hq1, hq2, ?_, determineSeverity_alert_iff _ _, determineSeverity_warn_iff _ _⟩
    intro hlt
    apply hq3
    have ha : ¬ q ≥ env.cfg.suspicionScoreAlert := not_le.mpr (lt_of_lt_of_le hlt hth)
    have hw : ¬ q ≥ env.cfg.suspicionScoreWarn := not_le.mpr hlt
    simp [determineSeverity, ha, hw]

/-- **C6, witness.** The hypotheses and conclusion of `age_gate_and_severity`
at a concrete unseen BUY trade of notional 2000 against the empty state. -/
theorem age_gate_and_severity_witness :
    hasTradeSeen initialState (calculateTradeHash (buyTrade "h6" 999000 2000)) = false ∧
    earlyExitStatus testEnv
      (resolveMarket testEnv initialState (buyTrade "h6" 999000 2000)).1
      (buyTrade "h6" 999000 2000) = none ∧
    testEnv.cfg.suspicionScoreWarn ≤ testEnv.cfg.suspicionScoreAlert ∧
    ((processTrade testEnv initialState (buyTrade "h6" 999000 2000)).2.status = "success" ∧
     hasTradeSeen (processTrade testEnv initialState (buyTrade "h6" 999000 2000)).1
       (calculateTradeHash (buyTrade "h6" 999000 2000)) = true ∧
     (getWallet (processTrade testEnv initialState (buyTrade "h6" 999000 2000)).1
       (buyTrade "h6" 999000 2000).proxyWallet).isSome = true ∧
     (getNetPosition (processTrade testEnv initialState (buyTrade "h6" 999000 2000)).1
       (buyTrade "h6" 999000 2000).proxyWallet (buyTrade "h6" 999000 2000).conditionID
       (((buyTrade "h6" 999000 2000).timestamp.tdiv
           (testEnv.cfg.netPositionWindowHrs * 3600)) *
         (testEnv.cfg.netPositionWindowHrs * 3600))).isSome = true ∧
     (((buyTrade "h6" 999000 2000).timestamp -
         (getOrCreateWallet testEnv
           (resolveMarket testEnv initialState (buyTrade "h6" 999000 2000)).2
           (buyTrade "h6" 999000 2000).proxyWallet
           (buyTrade "h6" 999000 2000).timestamp).1.firstSeenTS).tdiv 86400 >
         testEnv.cfg.newWalletDaysMax →
       (processTrade testEnv initialState (buyTrade "h6" 999000 2000)).2.emitted = false ∧
       (processTrade testEnv initialState (buyTrade "h6" 999000 2000)).2.severity = none) ∧
     (((buyTrade "h6" 999000 2000).timestamp -
         (getOrCreateWallet testEnv
           (resolveMarket testEnv initialState (buyTrade "h6" 999000 2000)).2
           (buyTrade "h6" 999000 2000).proxyWallet
           (buyTrade "h6" 999000 2000).timestamp).1.firstSeenTS).tdiv 86400 ≤
         testEnv.cfg.newWalletDaysMax →
       ∃ q, (processTrade testEnv initialState (buyTrade "h6" 999000 2000)).2.finalScore =
           some q ∧
         (processTrade testEnv initialState (buyTrade "h6" 999000 2000)).2.severity =
           some (determineSeverity testEnv.cfg q) ∧
         (q < testEnv.cfg.suspicionScoreWarn →
           (processTrade testEnv initialState (buyTrade "h6" 999000 2000)).2.emitted = false) ∧
         (determineSeverity testEnv.cfg q = Severity.alert ↔
           testEnv.cfg.suspicionScoreAlert ≤ q) ∧
         (determineSeverity testEnv.cfg q = Severity.warn ↔
           testEnv.cfg.suspicionScoreWarn ≤ q ∧ q < testEnv.cfg.suspicionScoreAlert))) := by
  have hs : hasTradeSeen initialState (calculateTradeHash (buyTrade "h6" 999000 2000)) =
      false := rfl
  have he : earlyExitStatus testEnv
      (resolveMarket testEnv initialState (buyTrade "h6" 999000 2000)).1
      (buyTrade "h6" 999000 2000) = none := by
    simp +decide [earlyExitStatus, resolveMarket, getMarketMap, initialState, buyTrade,
      testEnv, testCfg, isNotInsiderCategory, calculateNotional]
  have hth : testEnv.cfg.suspicionScoreWarn ≤ testEnv.cfg.suspicionScoreAlert := by
    norm_num [testEnv, testCfg]
  exact ⟨hs, he, hth,
    age_gate_and_severity testEnv initialState (buyTrade "h6" 999000 2000) hs he hth⟩

end InsiderWatch
